import Mathlib

/-!
Verification development for the azure-storage-mcp server.

This file gives a shallow embedding, in Lean 4, of the request-validation,
error-classification, normalization, summary and logging pipeline of the
azure-storage-mcp repository (src/azure_storage_mcp).  Pure Python functions
become Lean functions; raising/catching exceptions becomes `Except` over an
explicit exception type; provider (Azure SDK) calls are parameters of the
operations, each modelled as an `Except` outcome; `datetime`/`uuid` effects
are passed in as explicit arguments.  Python floats are modelled as exact
rationals (`ℚ`); Python string formatting with `:.Nf` is modelled by
fixed-point rendering with round-half-to-even, which agrees with CPython on
the dyadic values produced by binary floats.
-/

set_option autoImplicit false

namespace AzureStorageMCP

/-! ## Python-style primitives -/

/-- Python `str.lower()` (ASCII case folding, which is all the validators
and the sensitive-keyword matching rely on). -/
def pyLower (s : String) : String :=
  String.mk (s.data.map Char.toLower)

/-- Python `len(s) == 0` / falsiness of a string. -/
def pyIsEmpty (s : String) : Bool :=
  s.data.isEmpty

/-- Split a character list at every separator, keeping empty segments
(the semantics of Python's `str.split(sep)` for a one-character separator,
and of Lean's `String.split`). -/
def splitChars (p : Char → Bool) : List Char → List (List Char)
  | [] => [[]]
  | c :: t =>
      if p c then [] :: splitChars p t
      else
        match splitChars p t with
        | h :: r => (c :: h) :: r
        | [] => [[c]]

/-- `s.split(p)` on strings. -/
def pySplit (s : String) (p : Char → Bool) : List String :=
  (splitChars p s.data).map String.mk

/-- The string ends with the given character. -/
def pyEndsWithChar (s : String) (c : Char) : Bool :=
  s.data.getLast? = some c

/-- The string without its last character. -/
def pyDropLast (s : String) : String :=
  String.mk s.data.dropLast

/-- Truthiness of an optional string, as Python evaluates `if s:` for a
variable of type `Optional[str]`: `None` and the empty string are falsy. -/
def pyOptStrTruthy : Option String → Bool
  | none => false
  | some s => !pyIsEmpty s

/-- `startsWithChars hay needle`: the char list `needle` occurs at the head
of `hay`. -/
def startsWithChars : List Char → List Char → Bool
  | _, [] => true
  | [], _ :: _ => false
  | a :: as, b :: bs => a = b && startsWithChars as bs

/-- `containsChars hay needle`: `needle` occurs contiguously in `hay`
(Python's `needle in hay`). -/
def containsChars : List Char → List Char → Bool
  | [], needle => needle.isEmpty
  | h :: t, needle => startsWithChars (h :: t) needle || containsChars t needle

/-- Python's substring test `needle in hay` on strings. -/
def strContains (hay needle : String) : Bool :=
  containsChars hay.data needle.data

/-- First value bound to a key in an association list (Python dict lookup,
keys assumed unique as in every dict this code builds). -/
def lookupA {α : Type} : List (String × α) → String → Option α
  | [], _ => none
  | (k, v) :: t, key => if k = key then some v else lookupA t key

/-- Python dict assignment `d[k] = v`: replace the binding in place if the
key is present, else append it (insertion order preserved). -/
def dictInsert {α : Type} : List (String × α) → String → α → List (String × α)
  | [], key, v => [(key, v)]
  | (k, w) :: t, key, v =>
      if k = key then (k, v) :: t else (k, w) :: dictInsert t key v

/-- Lexicographic comparison of character lists by Unicode code point —
Python's string ordering. -/
def charsLe : List Char → List Char → Bool
  | [], _ => true
  | _ :: _, [] => false
  | a :: as, b :: bs =>
      if a = b then charsLe as bs else a.toNat < b.toNat

/-- Python's `s1 <= s2` on strings. -/
def pyStrLe (a b : String) : Bool :=
  charsLe a.data b.data

/-- Insert a pair into a key-sorted list of pairs, keeping keys ordered.
Used to model Python's `sorted` on `dict.items()` (keys are unique, so
sorting the pairs is sorting by key). -/
def sortedInsertPair {α : Type} (p : String × α) : List (String × α) → List (String × α)
  | [] => [p]
  | q :: t => if pyStrLe p.1 q.1 then p :: q :: t else q :: sortedInsertPair p t

/-- `sorted(d.items())` for a dict with unique keys: insertion sort of the
pair list by key. -/
def sortPairsByKey {α : Type} : List (String × α) → List (String × α)
  | [] => []
  | p :: t => sortedInsertPair p (sortPairsByKey t)

/-- Boolean check that a pair list is sorted by key (non-strictly). -/
def sortedByKeyB {α : Type} : List (String × α) → Bool
  | [] => true
  | [_] => true
  | p :: q :: t => pyStrLe p.1 q.1 && sortedByKeyB (q :: t)

/-- Round `(n * s) / d` (with `d > 0`) to the nearest integer, ties to
even — the rounding CPython's fixed-point float formatting applies to the
(dyadic) value, expressed on the numerator/denominator so it evaluates by
integer arithmetic. -/
def roundHalfEvenScaled (n d s : ℤ) : ℤ :=
  let m := n * s
  let f := Int.fdiv m d
  let r2 := 2 * (m - f * d)
  if r2 < d then f
  else if d < r2 then f + 1
  else if f % 2 = 0 then f else f + 1

/-- Left-pad a string with zeros to the given length. -/
def padZeros (s : String) (n : Nat) : String :=
  if s.length ≥ n then s else String.mk (List.replicate (n - s.length) '0') ++ s

/-- Python `format(q, '.Nf')` on an exact value: the value times `10 ^
prec` rounded half-to-even, rendered as a fixed-point decimal with `prec`
digits after the point (no point at all when `prec = 0`). -/
def formatFixed (q : ℚ) (prec : Nat) : String :=
  let scaled : ℤ := roundHalfEvenScaled q.num (q.den : ℤ) ((10 ^ prec : ℕ) : ℤ)
  let sign := if scaled < 0 then "-" else ""
  let n := scaled.natAbs
  if prec = 0 then
    sign ++ toString n
  else
    sign ++ toString (n / 10 ^ prec) ++ "." ++ padZeros (toString (n % 10 ^ prec)) prec

/-! ## Exceptions (utils/exceptions.py plus the external exception types the
code catches: pydantic's `ValidationError`, azure-core's
`ClientAuthenticationError` and `HttpResponseError`, and residual Python
exceptions such as `AttributeError`). -/

/-- The exception universe of the program.  The first five constructors are
`AzureStorageMCPError` and its subclasses from utils/exceptions.py; the
remaining constructors are the external exception classes the code
interacts with. -/
inductive PyExn where
  | mcpError (message : String)
  | authenticationError (message auth_method : String)
  | permissionError (message required_permission : String)
  | validationError (message field_name : String)
  | azureAPIError (message : String) (status_code : Option Nat)
  | pydanticValidationError (message : String)
  | clientAuthError (message : String)
  | httpResponseError (status_code : Nat) (message : String)
  | attributeError (message : String)
  | otherError (message : String)
  deriving DecidableEq, Repr

/-- Python `str(e)` for each exception (all carry their message). -/
def PyExn.str : PyExn → String
  | .mcpError m => m
  | .authenticationError m _ => m
  | .permissionError m _ => m
  | .validationError m _ => m
  | .azureAPIError m _ => m
  | .pydanticValidationError m => m
  | .clientAuthError m => m
  | .httpResponseError _ m => m
  | .attributeError m => m
  | .otherError m => m

/-- `type(e).__name__`, as written into error log records. -/
def PyExn.typeName : PyExn → String
  | .mcpError _ => "AzureStorageMCPError"
  | .authenticationError _ _ => "AuthenticationError"
  | .permissionError _ _ => "PermissionError"
  | .validationError _ _ => "ValidationError"
  | .azureAPIError _ _ => "AzureAPIError"
  | .pydanticValidationError _ => "ValidationError"
  | .clientAuthError _ => "ClientAuthenticationError"
  | .httpResponseError _ _ => "HttpResponseError"
  | .attributeError _ => "AttributeError"
  | .otherError _ => "Exception"

/-- `isinstance(e, AzureStorageMCPError)`: the base class and its four
subclasses from utils/exceptions.py. -/
def PyExn.isAzureStorageMCPError : PyExn → Bool
  | .mcpError _ => true
  | .authenticationError _ _ => true
  | .permissionError _ _ => true
  | .validationError _ _ => true
  | .azureAPIError _ _ => true
  | _ => false

/-- The `error_code` attribute of an `AzureStorageMCPError` (UNKNOWN_ERROR
for the base class), `none` for exceptions outside the taxonomy. -/
def PyExn.errorCode : PyExn → Option String
  | .mcpError _ => some "UNKNOWN_ERROR"
  | .authenticationError _ _ => some "AUTH_ERROR"
  | .permissionError _ _ => some "PERMISSION_ERROR"
  | .validationError _ _ => some "VALIDATION_ERROR"
  | .azureAPIError _ _ => some "AZURE_API_ERROR"
  | _ => none

/-! ## Validators (auth/azure_auth.py, class SecurityValidator) -/

/-- Lowercase hexadecimal digit, the `[0-9a-f]` character class. -/
def isHexLower (c : Char) : Bool :=
  c.isDigit || ('a' ≤ c && c ≤ 'f')

/-- Exact match of the regex core `[0-9a-f]{8}-[0-9a-f]{4}-[0-9a-f]{4}-
[0-9a-f]{4}-[0-9a-f]{12}` against a whole string. -/
def matchesUuidCore (s : String) : Bool :=
  match pySplit s (· = '-') with
  | [a, b, c, d, e] =>
      a.length = 8 && b.length = 4 && c.length = 4 && d.length = 4 &&
      e.length = 12 && (a ++ b ++ c ++ d ++ e).data.all isHexLower
  | _ => false

/-- Python `re.match(r'^core$', s)` as a whole-input test: `$` matches at
the end of the string and also just before one trailing newline. -/
def reDollarMatch (core : String → Bool) (s : String) : Bool :=
  core s || (pyEndsWithChar s '\n' && core (pyDropLast s))

/-- The allowed-character test of `re.match(r'^[a-zA-Z0-9._-]+$', s)`. -/
def resourceGroupCharsOk (s : String) : Bool :=
  !pyIsEmpty s && s.data.all fun c =>
    c.isAlpha || c.isDigit || c = '.' || c = '_' || c = '-'

/-- The allowed-character test of `re.match(r'^[a-z0-9]+$', s)`. -/
def accountNameCharsOk (s : String) : Bool :=
  !pyIsEmpty s && s.data.all fun c => c.isLower || c.isDigit

/-- SecurityValidator.validate_subscription_id. -/
def validate_subscription_id (subscription_id : String) : Except PyExn String :=
  if pyIsEmpty subscription_id then
    .error (.validationError "Subscription ID cannot be empty" "subscription_id")
  else if reDollarMatch matchesUuidCore (pyLower subscription_id) then
    .ok subscription_id
  else
    .error (.validationError "Invalid subscription ID format. Must be a valid UUID"
      "subscription_id")

/-- SecurityValidator.validate_resource_group. -/
def validate_resource_group (resource_group : String) : Except PyExn String :=
  if pyIsEmpty resource_group then
    .error (.validationError "Resource group name cannot be empty" "resource_group")
  else if !reDollarMatch resourceGroupCharsOk resource_group then
    .error (.validationError
      ("Invalid resource group name. Must contain only alphanumeric characters, " ++
        "periods, underscores, and hyphens") "resource_group")
  else if resource_group.length > 90 then
    .error (.validationError "Resource group name cannot exceed 90 characters"
      "resource_group")
  else
    .ok resource_group

/-- SecurityValidator.validate_storage_account_name. -/
def validate_storage_account_name (account_name : String) : Except PyExn String :=
  if pyIsEmpty account_name then
    .error (.validationError "Storage account name cannot be empty" "account_name")
  else if !reDollarMatch accountNameCharsOk account_name then
    .error (.validationError
      "Invalid storage account name. Must contain only lowercase letters and numbers"
      "account_name")
  else if account_name.length < 3 || account_name.length > 24 then
    .error (.validationError "Storage account name must be between 3 and 24 characters"
      "account_name")
  else
    .ok account_name

/-! ## Structured logging (utils/logging.py).  Parameter values are
modelled as strings; a log call is modelled by the record it emits. -/

/-- The sensitive-keyword set of StructuredLogger._sanitize_parameters. -/
def sensitive_keys : List String :=
  ["password", "secret", "key", "token", "credential"]

/-- A parameter key is redacted when its lowercase form contains one of the
sensitive keywords as a substring. -/
def isSensitiveKey (k : String) : Bool :=
  sensitive_keys.any fun s => strContains (pyLower k) s

/-- StructuredLogger._sanitize_parameters. -/
def sanitize_parameters (parameters : List (String × String)) :
    List (String × String) :=
  parameters.map fun p =>
    if isSensitiveKey p.1 then (p.1, "***REDACTED***") else (p.1, p.2)

/-- The structured record StructuredLogger.log_tool_execution emits
(timestamp passed in; it comes from `datetime.utcnow`). -/
structure ToolLogRecord where
  timestamp : String
  tool_name : String
  parameters : List (String × String)
  result_type : String
  success : Bool
  error : Option String
  deriving DecidableEq, Repr

/-- StructuredLogger.log_tool_execution: one record per call, parameters
sanitized. -/
def log_tool_execution (ts tool_name : String)
    (parameters : List (String × String)) (result_type : String)
    (success : Bool) (error : Option String) : ToolLogRecord :=
  { timestamp := ts
    tool_name := tool_name
    parameters := sanitize_parameters parameters
    result_type := result_type
    success := success
    error := error }

/-- The context dictionary the dispatcher passes to log_error on a failed
tool invocation: the tool name and the raw argument object. -/
structure DispatchErrorContext where
  tool : String
  arguments : List (String × String)
  deriving DecidableEq, Repr

/-- The structured record StructuredLogger.log_error emits for the
dispatcher's failure path (context is passed through unmodified). -/
structure ErrorLogRecord where
  timestamp : String
  event_type : String
  error_type : String
  error_message : String
  context : DispatchErrorContext
  deriving DecidableEq, Repr

/-- StructuredLogger.log_error as called from server.handle_call_tool. -/
def log_error_record (ts : String) (e : PyExn) (context : DispatchErrorContext) :
    ErrorLogRecord :=
  { timestamp := ts
    event_type := "error"
    error_type := e.typeName
    error_message := e.str
    context := context }

/-! ## Provider-side object model: the shapes of the Azure SDK objects the
code reads, with `Option` for the attributes the code itself tests for
`None`/absence.  Enum-like SDK values are modelled by `AzValue`, capturing
the duck-typed `x.value if hasattr(x, 'value') else str(x)` idiom. -/

/-- An SDK field that is either an enum object carrying `.value` or a plain
value whose `str()` is taken. -/
inductive AzValue where
  | enumVal (value : String)
  | strVal (s : String)
  deriving DecidableEq, Repr

/-- `x.value if hasattr(x, 'value') else str(x)`. -/
def AzValue.render : AzValue → String
  | .enumVal v => v
  | .strVal s => s

/-- `x.value if x and hasattr(x, 'value') else str(x) if x else None`. -/
def renderOptValue : Option AzValue → Option String
  | none => none
  | some v => some v.render

/-- `x.value if x and hasattr(x, 'value') else str(x) if x else dflt`. -/
def renderValueD (x : Option AzValue) (dflt : String) : String :=
  match x with
  | none => dflt
  | some v => v.render

/-- SDK IPRule. -/
structure AzIpRule where
  ip_address_or_range : String
  action : AzValue
  deriving DecidableEq, Repr

/-- SDK VirtualNetworkRule. -/
structure AzVnetRule where
  virtual_network_resource_id : String
  action : AzValue
  state : AzValue
  deriving DecidableEq, Repr

/-- SDK ResourceAccessRule. -/
structure AzResourceAccessRule where
  tenant_id : String
  resource_id : String
  deriving DecidableEq, Repr

/-- SDK NetworkRuleSet (rule lists may be None, the code writes
`network_rules.ip_rules or []`). -/
structure AzNetworkRuleSet where
  default_action : AzValue
  ip_rules : Option (List AzIpRule)
  virtual_network_rules : Option (List AzVnetRule)
  resource_access_rules : Option (List AzResourceAccessRule)
  bypass : Option AzValue
  deriving DecidableEq, Repr

/-- SDK Sku. -/
structure AzSku where
  name : String
  deriving DecidableEq, Repr

/-- SDK Endpoints (the four service endpoints the code reads). -/
structure AzEndpoints where
  blob : String
  queue : String
  table : String
  file : String
  deriving DecidableEq, Repr

/-- SDK EncryptionService (`.enabled`). -/
structure AzEncryptionService where
  enabled : Bool
  deriving DecidableEq, Repr

/-- SDK EncryptionServices (`.blob`). -/
structure AzEncryptionServices where
  blob : AzEncryptionService
  deriving DecidableEq, Repr

/-- SDK Encryption (`.services`, `.key_source`). -/
structure AzEncryption where
  services : AzEncryptionServices
  key_source : AzValue
  deriving DecidableEq, Repr

/-- SDK StorageAccount as returned by the listing iterators.
`last_modified_time` is read via `getattr(account, 'last_modified_time',
account.creation_time)`, hence `Option`. Timestamps are opaque strings. -/
structure AzAccount where
  name : String
  id : String
  location : String
  sku : AzSku
  kind : AzValue
  access_tier : Option AzValue
  creation_time : String
  last_modified_time : Option String
  provisioning_state : AzValue
  status_of_primary : AzValue
  status_of_secondary : Option AzValue
  deriving DecidableEq, Repr

/-- SDK StorageAccount as returned by get_properties (superset view used by
the details and network-rules operations). -/
structure AzAccountProps where
  name : String
  location : String
  sku : AzSku
  kind : AzValue
  access_tier : Option AzValue
  creation_time : String
  last_modified_time : Option String
  provisioning_state : AzValue
  primary_location : String
  secondary_location : Option String
  status_of_primary : AzValue
  status_of_secondary : Option AzValue
  primary_endpoints : AzEndpoints
  secondary_endpoints : Option AzEndpoints
  enable_https_traffic_only : Bool
  allow_blob_public_access : Bool
  allow_shared_key_access : Bool
  allow_cross_tenant_replication : Bool
  public_network_access : Option AzValue
  minimum_tls_version : Option AzValue
  encryption : Option AzEncryption
  network_rule_set : Option AzNetworkRuleSet
  deriving DecidableEq, Repr

/-- SDK retention-policy-like objects (`.enabled`, `.days`). -/
structure AzRetentionPolicy where
  enabled : Bool
  days : Option Int
  deriving DecidableEq, Repr

/-- SDK object with only `.enabled` (change feed, last-access tracking). -/
structure AzEnabledObj where
  enabled : Bool
  deriving DecidableEq, Repr

/-- SDK BlobServiceProperties; each sub-object is `Option`, covering both an
absent attribute (the `hasattr` test) and a `None` value (the truthiness
test) — the code treats the two identically. -/
structure AzBlobProps where
  is_versioning_enabled : Option Bool
  change_feed : Option AzEnabledObj
  delete_retention_policy : Option AzRetentionPolicy
  container_delete_retention_policy : Option AzRetentionPolicy
  restore_policy : Option AzRetentionPolicy
  last_access_time_tracking_policy : Option AzEnabledObj
  deriving DecidableEq, Repr

/-- SDK Subnet (`.id`). -/
structure AzSubnet where
  id : String
  deriving DecidableEq, Repr

/-- SDK PrivateEndpoint (`.id`, `.subnet`). -/
structure AzPrivateEndpoint where
  id : String
  subnet : Option AzSubnet
  deriving DecidableEq, Repr

/-- SDK PrivateLinkServiceConnectionState. -/
structure AzPLSConnectionState where
  status : String
  actions_required : Option String
  description : Option String
  deriving DecidableEq, Repr

/-- SDK PrivateEndpointConnection. -/
structure AzPEConnection where
  name : String
  private_endpoint : Option AzPrivateEndpoint
  private_link_service_connection_state : AzPLSConnectionState
  provisioning_state : AzValue
  deriving DecidableEq, Repr

/-- SDK MetricValue: one data point; every aggregation field may be absent,
and so may the timestamp (the code tests `if data_point.time_stamp`). -/
structure AzDataPoint where
  time_stamp : Option String
  average : Option ℚ
  total : Option ℚ
  maximum : Option ℚ
  minimum : Option ℚ
  count : Option ℚ
  deriving DecidableEq, Repr

/-- SDK TimeSeriesElement. -/
structure AzTimeSeries where
  data : List AzDataPoint
  deriving DecidableEq, Repr

/-- SDK Metric (unit plus its time series). -/
structure AzMetric where
  unit : AzValue
  timeseries : List AzTimeSeries
  deriving DecidableEq, Repr

/-- SDK response of `client.metrics.list` (`.value` is the metric list). -/
structure AzMetricResult where
  value : List AzMetric
  deriving DecidableEq, Repr

/-- SDK MetricDefinition. -/
structure AzMetricDefinition where
  name : AzValue
  display_name : String
  display_description : Option String
  unit : AzValue
  primary_aggregation_type : AzValue
  supported_aggregation_types : List AzValue
  dimensions : Option (List AzValue)
  deriving DecidableEq, Repr

/-! ## Normalized response schema (models/*.py).  Timestamps stay opaque
strings; metric values are exact rationals. -/

/-- models.ResponseMetadata (constructed from effectful inputs — a fresh
correlation id and measured elapsed time — so operations receive it as an
argument). -/
structure ResponseMetadata where
  timestamp : String
  correlation_id : String
  request_id : Option String
  execution_time_ms : Option Int
  deriving DecidableEq, Repr

/-- models.StorageAccountSummary. -/
structure StorageAccountSummary where
  name : String
  resource_group : String
  location : String
  sku : String
  kind : String
  access_tier : Option String
  creation_time : String
  last_modified_time : String
  provisioning_state : String
  status_of_primary : String
  status_of_secondary : Option String
  deriving DecidableEq, Repr

/-- models.ListStorageAccountsRequest. -/
structure ListStorageAccountsRequest where
  subscription_id : String
  resource_group : Option String
  include_deleted : Bool
  deriving DecidableEq, Repr

/-- models.ListStorageAccountsResponse. -/
structure ListStorageAccountsResponse where
  storage_accounts : List StorageAccountSummary
  total_count : Int
  metadata : ResponseMetadata
  summary : String
  deriving DecidableEq, Repr

/-- models.SecuritySettings.  The two `Dict[str, Any]` fields are modelled
by records with exactly the keys the code writes. -/
structure EncryptionAtRest where
  enabled : Bool
  key_source : String
  deriving DecidableEq, Repr

/-- The `encryption_in_transit` dictionary of SecuritySettings. -/
structure EncryptionInTransit where
  enabled : Bool
  minimum_tls_version : String
  deriving DecidableEq, Repr

/-- models.SecuritySettings. -/
structure SecuritySettings where
  require_secure_transfer : Bool
  allow_blob_public_access : Bool
  allow_shared_key_access : Bool
  allow_cross_tenant_replication : Bool
  public_network_access : String
  minimum_tls_version : String
  encryption_at_rest : EncryptionAtRest
  encryption_in_transit : EncryptionInTransit
  deriving DecidableEq, Repr

/-- models.IpRule. -/
structure IpRule where
  ip_address_or_range : String
  action : String
  deriving DecidableEq, Repr

/-- models.VirtualNetworkRule. -/
structure VirtualNetworkRule where
  subnet_id : String
  action : String
  state : String
  deriving DecidableEq, Repr

/-- models.ResourceAccessRule. -/
structure ResourceAccessRule where
  tenant_id : String
  resource_id : String
  deriving DecidableEq, Repr

/-- models.NetworkConfiguration. -/
structure NetworkConfiguration where
  default_action : String
  ip_rules : List IpRule
  virtual_network_rules : List VirtualNetworkRule
  resource_access_rules : List ResourceAccessRule
  bypass : String
  deriving DecidableEq, Repr

/-- models.BlobServiceProperties. -/
structure BlobServiceProperties where
  versioning_enabled : Bool
  change_feed_enabled : Bool
  soft_delete_enabled : Bool
  soft_delete_retention_days : Option Int
  container_soft_delete_enabled : Bool
  container_soft_delete_retention_days : Option Int
  restore_policy_enabled : Bool
  restore_policy_days : Option Int
  last_access_time_tracking_enabled : Bool
  deriving DecidableEq, Repr

/-- models.DiagnosticSettings (only the fields the code populates). -/
structure DiagnosticSettings where
  enabled : Bool
  workspace_id : Option String
  storage_account_id : Option String
  categories : List String
  metrics : List String
  deriving DecidableEq, Repr

/-- models.StorageAccountBasicProperties. -/
structure StorageAccountBasicProperties where
  name : String
  resource_group : String
  subscription_id : String
  location : String
  sku : String
  kind : String
  access_tier : Option String
  creation_time : String
  last_modified_time : String
  provisioning_state : String
  primary_location : String
  secondary_location : Option String
  status_of_primary : String
  status_of_secondary : Option String
  primary_endpoints : List (String × String)
  secondary_endpoints : Option (List (String × String))
  deriving DecidableEq, Repr

/-- models.StorageAccountDetails (access_policies is always the empty list;
the code notes it would need additional API calls). -/
structure StorageAccountDetails where
  basic_properties : StorageAccountBasicProperties
  security_settings : SecuritySettings
  network_configuration : NetworkConfiguration
  blob_service_properties : BlobServiceProperties
  access_policies : List Unit
  diagnostic_settings : DiagnosticSettings
  metadata : ResponseMetadata
  summary : String
  deriving DecidableEq, Repr

/-- models.GetStorageAccountDetailsRequest. -/
structure GetStorageAccountDetailsRequest where
  subscription_id : String
  resource_group : String
  account_name : String
  include_keys : Bool
  deriving DecidableEq, Repr

/-- models.GetNetworkRulesRequest. -/
structure GetNetworkRulesRequest where
  subscription_id : String
  resource_group : String
  account_name : String
  deriving DecidableEq, Repr

/-- models.NetworkRules (the get_network_rules response). -/
structure NetworkRules where
  default_action : String
  ip_rules : List IpRule
  virtual_network_rules : List VirtualNetworkRule
  resource_access_rules : List ResourceAccessRule
  bypass : String
  metadata : ResponseMetadata
  summary : String
  deriving DecidableEq, Repr

/-- models.NetworkInterfaceInfo. -/
structure NetworkInterfaceInfo where
  id : String
  name : String
  private_ip_address : String
  subnet_id : String
  is_primary : Bool
  deriving DecidableEq, Repr

/-- models.PrivateEndpointConnection. -/
structure PrivateEndpointConnection where
  name : String
  private_endpoint_id : String
  connection_state : String
  provisioning_state : String
  network_interface_info : NetworkInterfaceInfo
  dns_zones : List String
  actions_required : List String
  description : String
  deriving DecidableEq, Repr

/-- models.GetPrivateEndpointsRequest. -/
structure GetPrivateEndpointsRequest where
  subscription_id : String
  resource_group : String
  account_name : String
  deriving DecidableEq, Repr

/-- models.GetPrivateEndpointsResponse. -/
structure GetPrivateEndpointsResponse where
  private_endpoints : List PrivateEndpointConnection
  total_count : Int
  metadata : ResponseMetadata
  summary : String
  deriving DecidableEq, Repr

/-- models.MetricDataPoint. -/
structure MetricDataPoint where
  timestamp : String
  value : ℚ
  unit : String
  aggregation_type : String
  deriving DecidableEq, Repr

/-- models.MetricDefinition. -/
structure MetricDefinition where
  name : String
  display_name : String
  description : String
  unit : String
  primary_aggregation_type : String
  supported_aggregation_types : List String
  dimensions : List String
  deriving DecidableEq, Repr

/-- models.GetStorageMetricsRequest. -/
structure GetStorageMetricsRequest where
  subscription_id : String
  resource_group : String
  account_name : String
  time_range : String
  metrics : List String
  aggregation_type : String
  interval : String
  deriving DecidableEq, Repr

/-- models.StorageMetrics. The two dictionaries keep Python's insertion
order as association lists. Times are integer epoch seconds. -/
structure StorageMetrics where
  account_name : String
  time_range : String
  start_time : Int
  end_time : Int
  metrics_data : List (String × List MetricDataPoint)
  aggregated_summary : List (String × ℚ)
  available_metrics : List MetricDefinition
  metadata : ResponseMetadata
  summary : String
  deriving DecidableEq, Repr

/-! ## Storage accounts tool (tools/storage_accounts.py).  Provider calls
are parameters (`Except` outcomes); the `except` chains of the source are
explicit error-translation functions applied to the body's outcome. -/

/-- The provider calls list_storage_accounts can issue. -/
structure ListProviderEnv where
  getClient : Except PyExn Unit
  listAll : Except PyExn (List AzAccount)
  listByRG : String → Except PyExn (List AzAccount)

/-- The provider calls get_storage_account_details can issue. -/
structure DetailsProviderEnv where
  getClient : Except PyExn Unit
  getProps : Except PyExn AzAccountProps
  getBlobProps : Except PyExn AzBlobProps

/-- Normalization of one listed account into StorageAccountSummary
(storage_accounts.py lines 86-98).  `account.id.split('/')[4]` raises
IndexError when the resource id has too few segments. -/
def buildAccountSummary (account : AzAccount) : Except PyExn StorageAccountSummary :=
  match (pySplit account.id (· = '/')).get? 4 with
  | none => .error (.otherError "list index out of range")
  | some rg =>
      .ok { name := account.name
            resource_group := rg
            location := account.location
            sku := account.sku.name
            kind := account.kind.render
            access_tier := renderOptValue account.access_tier
            creation_time := account.creation_time
            last_modified_time := account.last_modified_time.getD account.creation_time
            provisioning_state := account.provisioning_state.render
            status_of_primary := account.status_of_primary.render
            status_of_secondary := renderOptValue account.status_of_secondary }

/-- Region histogram of the listed accounts (`locations` dict built by
`locations[loc] = locations.get(loc, 0) + 1`). -/
def locationCounts (accounts : List StorageAccountSummary) : List (String × Nat) :=
  accounts.foldl
    (fun locs a => dictInsert locs a.location ((lookupA locs a.location).getD 0 + 1)) []

/-- The `scope` string of the list summary. -/
def listScope (request : ListStorageAccountsRequest) : String :=
  if pyOptStrTruthy request.resource_group then
    "resource group '" ++ request.resource_group.getD "" ++ "'"
  else "subscription"

/-- StorageAccountsTools._create_list_summary. -/
def create_list_summary (accounts : List StorageAccountSummary)
    (request : ListStorageAccountsRequest) : String :=
  if accounts.isEmpty then
    "No storage accounts found in " ++ listScope request
  else
    let count := accounts.length
    let location_summary := String.intercalate ", "
      ((sortPairsByKey (locationCounts accounts)).map fun p =>
        p.1 ++ ": " ++ toString p.2)
    "Found " ++ toString count ++ " storage account" ++
      (if count ≠ 1 then "s" else "") ++ " in " ++ listScope request ++
      ". Distribution by region: " ++ location_summary

/-- The try body of StorageAccountsTools.list_storage_accounts. -/
def list_storage_accounts_body (req : ListStorageAccountsRequest)
    (env : ListProviderEnv) (md : ResponseMetadata) :
    Except PyExn ListStorageAccountsResponse := do
  let _ ← validate_subscription_id req.subscription_id
  let _ ← if pyOptStrTruthy req.resource_group then
      do let _ ← validate_resource_group (req.resource_group.getD ""); pure ()
    else pure ()
  let _ ← env.getClient
  let accounts ← if pyOptStrTruthy req.resource_group then
      env.listByRG (req.resource_group.getD "")
    else env.listAll
  let storage_accounts ← accounts.mapM buildAccountSummary
  pure { storage_accounts := storage_accounts
         total_count := storage_accounts.length
         metadata := md
         summary := create_list_summary storage_accounts req }

/-- The except chain of list_storage_accounts (no 404 branch in this
operation). -/
def listExceptChain (e : PyExn) : PyExn :=
  match e with
  | .validationError m f => .validationError m f
  | .clientAuthError m =>
      .authenticationError ("Authentication failed: " ++ m) "azure_auth"
  | .httpResponseError sc m =>
      if sc = 403 then
        .permissionError ("Insufficient permissions to list storage accounts: " ++ m)
          "Microsoft.Storage/storageAccounts/read"
      else .azureAPIError ("Azure API error: " ++ m) (some sc)
  | e => .mcpError ("Unexpected error: " ++ e.str)

/-- StorageAccountsTools.list_storage_accounts. -/
def list_storage_accounts (req : ListStorageAccountsRequest)
    (env : ListProviderEnv) (md : ResponseMetadata) :
    Except PyExn ListStorageAccountsResponse :=
  match list_storage_accounts_body req env md with
  | .ok r => .ok r
  | .error e => .error (listExceptChain e)

/-- StorageAccountsTools._build_basic_properties. -/
def build_basic_properties (account_props : AzAccountProps)
    (request : GetStorageAccountDetailsRequest) : StorageAccountBasicProperties :=
  { name := account_props.name
    resource_group := request.resource_group
    subscription_id := request.subscription_id
    location := account_props.location
    sku := account_props.sku.name
    kind := account_props.kind.render
    access_tier := renderOptValue account_props.access_tier
    creation_time := account_props.creation_time
    last_modified_time := account_props.last_modified_time.getD account_props.creation_time
    provisioning_state := account_props.provisioning_state.render
    primary_location := account_props.primary_location
    secondary_location := account_props.secondary_location
    status_of_primary := account_props.status_of_primary.render
    status_of_secondary := renderOptValue account_props.status_of_secondary
    primary_endpoints :=
      [("blob", account_props.primary_endpoints.blob),
       ("queue", account_props.primary_endpoints.queue),
       ("table", account_props.primary_endpoints.table),
       ("file", account_props.primary_endpoints.file)]
    secondary_endpoints :=
      match account_props.secondary_endpoints with
      | none => none
      | some se => some [("blob", se.blob), ("queue", se.queue),
                         ("table", se.table), ("file", se.file)] }

/-- StorageAccountsTools._build_security_settings. -/
def build_security_settings (account_props : AzAccountProps) : SecuritySettings :=
  { require_secure_transfer := account_props.enable_https_traffic_only
    allow_blob_public_access := account_props.allow_blob_public_access
    allow_shared_key_access := account_props.allow_shared_key_access
    allow_cross_tenant_replication := account_props.allow_cross_tenant_replication
    public_network_access := renderValueD account_props.public_network_access "Enabled"
    minimum_tls_version := renderValueD account_props.minimum_tls_version "TLS1_0"
    encryption_at_rest :=
      { enabled :=
          match account_props.encryption with
          | some enc => enc.services.blob.enabled
          | none => false
        key_source :=
          match account_props.encryption with
          | some enc => enc.key_source.render
          | none => "Microsoft.Storage" }
    encryption_in_transit :=
      { enabled := account_props.enable_https_traffic_only
        minimum_tls_version := renderValueD account_props.minimum_tls_version "TLS1_0" } }

/-- StorageAccountsTools._build_network_configuration: explicit defaults
when no network rule set exists. -/
def build_network_configuration (network_rules : Option AzNetworkRuleSet) :
    NetworkConfiguration :=
  match network_rules with
  | none =>
      { default_action := "Allow"
        ip_rules := []
        virtual_network_rules := []
        resource_access_rules := []
        bypass := "AzureServices" }
  | some nr =>
      { default_action := nr.default_action.render
        ip_rules := (nr.ip_rules.getD []).map fun r =>
          { ip_address_or_range := r.ip_address_or_range, action := r.action.render }
        virtual_network_rules := (nr.virtual_network_rules.getD []).map fun r =>
          { subnet_id := r.virtual_network_resource_id
            action := r.action.render
            state := r.state.render }
        resource_access_rules := (nr.resource_access_rules.getD []).map fun r =>
          { tenant_id := r.tenant_id, resource_id := r.resource_id }
        bypass := renderValueD nr.bypass "None" }

/-- StorageAccountsTools._build_blob_service_properties. -/
def build_blob_service_properties (blob_props : Option AzBlobProps) :
    BlobServiceProperties :=
  match blob_props with
  | none =>
      { versioning_enabled := false
        change_feed_enabled := false
        soft_delete_enabled := false
        soft_delete_retention_days := none
        container_soft_delete_enabled := false
        container_soft_delete_retention_days := none
        restore_policy_enabled := false
        restore_policy_days := none
        last_access_time_tracking_enabled := false }
  | some bp =>
      { versioning_enabled := bp.is_versioning_enabled.getD false
        change_feed_enabled :=
          match bp.change_feed with
          | some cf => cf.enabled
          | none => false
        soft_delete_enabled :=
          match bp.delete_retention_policy with
          | some p => p.enabled
          | none => false
        soft_delete_retention_days :=
          match bp.delete_retention_policy with
          | some p => if p.enabled then p.days else none
          | none => none
        container_soft_delete_enabled :=
          match bp.container_delete_retention_policy with
          | some p => p.enabled
          | none => false
        container_soft_delete_retention_days :=
          match bp.container_delete_retention_policy with
          | some p => if p.enabled then p.days else none
          | none => none
        restore_policy_enabled :=
          match bp.restore_policy with
          | some p => p.enabled
          | none => false
        restore_policy_days :=
          match bp.restore_policy with
          | some p => if p.enabled then p.days else none
          | none => none
        last_access_time_tracking_enabled :=
          match bp.last_access_time_tracking_policy with
          | some p => p.enabled
          | none => false }

/-- StorageAccountsTools._create_details_summary. -/
def create_details_summary (basic_props : StorageAccountBasicProperties)
    (security_settings : SecuritySettings) : String :=
  let security_items : List String :=
    (if security_settings.require_secure_transfer then ["secure transfer required"] else []) ++
    (if !security_settings.allow_blob_public_access then ["public access disabled"] else []) ++
    (if !security_settings.allow_shared_key_access then ["shared key access disabled"] else [])
  let security_summary :=
    if security_items.isEmpty then "standard security settings"
    else String.intercalate ", " security_items
  "Storage account '" ++ basic_props.name ++ "' in " ++ basic_props.location ++
    " (" ++ basic_props.sku ++ ", " ++ basic_props.kind ++ "). Security: " ++
    security_summary ++ ". Status: " ++ basic_props.provisioning_state

/-- The try body of StorageAccountsTools.get_storage_account_details.  The
mandatory get_properties call re-raises as-is; the optional blob-properties
call degrades to `None` on any failure. -/
def get_storage_account_details_body (req : GetStorageAccountDetailsRequest)
    (env : DetailsProviderEnv) (md : ResponseMetadata) :
    Except PyExn StorageAccountDetails := do
  let _ ← validate_subscription_id req.subscription_id
  let _ ← validate_resource_group req.resource_group
  let _ ← validate_storage_account_name req.account_name
  let _ ← env.getClient
  let account_props ← env.getProps
  let network_rules := account_props.network_rule_set
  let blob_props :=
    match env.getBlobProps with
    | .ok bp => some bp
    | .error _ => none
  let basic_properties := build_basic_properties account_props req
  let security_settings := build_security_settings account_props
  pure { basic_properties := basic_properties
         security_settings := security_settings
         network_configuration := build_network_configuration network_rules
         blob_service_properties := build_blob_service_properties blob_props
         access_policies := []
         diagnostic_settings :=
           { enabled := false
             workspace_id := none
             storage_account_id := none
             categories := []
             metrics := [] }
         metadata := md
         summary := create_details_summary basic_properties security_settings }

/-- The except chain of get_storage_account_details. -/
def detailsExceptChain (account_name : String) (e : PyExn) : PyExn :=
  match e with
  | .validationError m f => .validationError m f
  | .clientAuthError m =>
      .authenticationError ("Authentication failed: " ++ m) "azure_auth"
  | .httpResponseError sc m =>
      if sc = 403 then
        .permissionError ("Insufficient permissions to access storage account: " ++ m)
          "Microsoft.Storage/storageAccounts/read"
      else if sc = 404 then
        .azureAPIError ("Storage account not found: " ++ account_name) (some 404)
      else .azureAPIError ("Azure API error: " ++ m) (some sc)
  | e => .mcpError ("Unexpected error: " ++ e.str)

/-- StorageAccountsTools.get_storage_account_details. -/
def get_storage_account_details (req : GetStorageAccountDetailsRequest)
    (env : DetailsProviderEnv) (md : ResponseMetadata) :
    Except PyExn StorageAccountDetails :=
  match get_storage_account_details_body req env md with
  | .ok r => .ok r
  | .error e => .error (detailsExceptChain req.account_name e)

/-! ## Network rules tool (tools/network_rules.py). -/

/-- The provider calls get_network_rules can issue. -/
structure NetworkProviderEnv where
  getClient : Except PyExn Unit
  getProps : Except PyExn AzAccountProps

/-- The provider calls get_private_endpoints can issue. -/
structure PrivateEndpointsProviderEnv where
  getClient : Except PyExn Unit
  connections : Except PyExn (List AzPEConnection)

/-- NetworkRulesTools._create_network_rules_summary. -/
def create_network_rules_summary (network_rules : AzNetworkRuleSet)
    (account_name : String) : String :=
  let default_action := network_rules.default_action.render
  let ip_rule_count := (network_rules.ip_rules.getD []).length
  let vnet_rule_count := (network_rules.virtual_network_rules.getD []).length
  let resource_rule_count := (network_rules.resource_access_rules.getD []).length
  let bypass_services := renderValueD network_rules.bypass "None"
  let rules_summary : List String :=
    (if ip_rule_count > 0 then
      [toString ip_rule_count ++ " IP rule" ++ (if ip_rule_count ≠ 1 then "s" else "")]
     else []) ++
    (if vnet_rule_count > 0 then
      [toString vnet_rule_count ++ " VNet rule" ++ (if vnet_rule_count ≠ 1 then "s" else "")]
     else []) ++
    (if resource_rule_count > 0 then
      [toString resource_rule_count ++ " resource rule" ++
        (if resource_rule_count ≠ 1 then "s" else "")]
     else [])
  let rules_text :=
    if rules_summary.isEmpty then "no custom rules"
    else String.intercalate ", " rules_summary
  "Network access for '" ++ account_name ++ "': default action is " ++
    default_action ++ ". Rules: " ++ rules_text ++ ". Bypass: " ++ bypass_services

/-- The try body of NetworkRulesTools.get_network_rules.  The source reads
`account_props.network_rule_set` and immediately dereferences
`network_rules.default_action` without a `None` guard, so an account with
no network rule set raises AttributeError here. -/
def get_network_rules_body (req : GetNetworkRulesRequest)
    (env : NetworkProviderEnv) (md : ResponseMetadata) :
    Except PyExn NetworkRules := do
  let _ ← validate_subscription_id req.subscription_id
  let _ ← validate_resource_group req.resource_group
  let _ ← validate_storage_account_name req.account_name
  let _ ← env.getClient
  let account_props ← env.getProps
  match account_props.network_rule_set with
  | none =>
      .error (.attributeError "'NoneType' object has no attribute 'default_action'")
  | some network_rules =>
      pure { default_action := network_rules.default_action.render
             ip_rules := (network_rules.ip_rules.getD []).map fun r =>
               { ip_address_or_range := r.ip_address_or_range, action := r.action.render }
             virtual_network_rules := (network_rules.virtual_network_rules.getD []).map fun r =>
               { subnet_id := r.virtual_network_resource_id
                 action := r.action.render
                 state := r.state.render }
             resource_access_rules := (network_rules.resource_access_rules.getD []).map fun r =>
               { tenant_id := r.tenant_id, resource_id := r.resource_id }
             bypass := renderValueD network_rules.bypass "None"
             metadata := md
             summary := create_network_rules_summary network_rules req.account_name }

/-- The except chain of get_network_rules. -/
def networkExceptChain (account_name : String) (e : PyExn) : PyExn :=
  match e with
  | .validationError m f => .validationError m f
  | .clientAuthError m =>
      .authenticationError ("Authentication failed: " ++ m) "azure_auth"
  | .httpResponseError sc m =>
      if sc = 403 then
        .permissionError ("Insufficient permissions to access network rules: " ++ m)
          "Microsoft.Storage/storageAccounts/read"
      else if sc = 404 then
        .azureAPIError ("Storage account not found: " ++ account_name) (some 404)
      else .azureAPIError ("Azure API error: " ++ m) (some sc)
  | e => .mcpError ("Unexpected error: " ++ e.str)

/-- NetworkRulesTools.get_network_rules. -/
def get_network_rules (req : GetNetworkRulesRequest) (env : NetworkProviderEnv)
    (md : ResponseMetadata) : Except PyExn NetworkRules :=
  match get_network_rules_body req env md with
  | .ok r => .ok r
  | .error e => .error (networkExceptChain req.account_name e)

/-- Normalization of one private endpoint connection
(network_rules.py lines 168-188). -/
def buildPrivateEndpoint (connection : AzPEConnection) : PrivateEndpointConnection :=
  let pe_id :=
    match connection.private_endpoint with
    | some pe => pe.id
    | none => ""
  { name := connection.name
    private_endpoint_id := pe_id
    connection_state := connection.private_link_service_connection_state.status
    provisioning_state := connection.provisioning_state.render
    network_interface_info :=
      { id := pe_id
        name := connection.name
        private_ip_address := ""
        subnet_id :=
          match connection.private_endpoint with
          | some pe =>
              match pe.subnet with
              | some sn => sn.id
              | none => ""
          | none => ""
        is_primary := true }
    dns_zones := []
    actions_required :=
      match connection.private_link_service_connection_state.actions_required with
      | none => []
      | some s => if pyIsEmpty s then [] else pySplit s (· = ',')
    description :=
      (connection.private_link_service_connection_state.description).getD "" }

/-- Connection-state histogram of the private endpoints. -/
def connectionStateCounts (private_endpoints : List PrivateEndpointConnection) :
    List (String × Nat) :=
  private_endpoints.foldl
    (fun states e =>
      dictInsert states e.connection_state
        ((lookupA states e.connection_state).getD 0 + 1)) []

/-- NetworkRulesTools._create_private_endpoints_summary. -/
def create_private_endpoints_summary
    (private_endpoints : List PrivateEndpointConnection)
    (account_name : String) : String :=
  if private_endpoints.isEmpty then
    "No private endpoints configured for storage account '" ++ account_name ++ "'"
  else
    let count := private_endpoints.length
    let state_summary := String.intercalate ", "
      ((sortPairsByKey (connectionStateCounts private_endpoints)).map fun p =>
        p.1 ++ ": " ++ toString p.2)
    "Found " ++ toString count ++ " private endpoint" ++
      (if count ≠ 1 then "s" else "") ++ " for '" ++ account_name ++
      "'. Connection states: " ++ state_summary

/-- The try body of NetworkRulesTools.get_private_endpoints.  The inner
try/except absorbs exactly a 404 from the connection listing (yielding an
empty list); every other exception propagates. -/
def get_private_endpoints_body (req : GetPrivateEndpointsRequest)
    (env : PrivateEndpointsProviderEnv) (md : ResponseMetadata) :
    Except PyExn GetPrivateEndpointsResponse := do
  let _ ← validate_subscription_id req.subscription_id
  let _ ← validate_resource_group req.resource_group
  let _ ← validate_storage_account_name req.account_name
  let _ ← env.getClient
  let private_endpoints ←
    match env.connections with
    | .ok conns => .ok (conns.map buildPrivateEndpoint)
    | .error (.httpResponseError sc m) =>
        if sc = 404 then .ok [] else .error (.httpResponseError sc m)
    | .error e => .error e
  pure { private_endpoints := private_endpoints
         total_count := private_endpoints.length
         metadata := md
         summary := create_private_endpoints_summary private_endpoints req.account_name }

/-- The except chain of get_private_endpoints. -/
def privateEndpointsExceptChain (account_name : String) (e : PyExn) : PyExn :=
  match e with
  | .validationError m f => .validationError m f
  | .clientAuthError m =>
      .authenticationError ("Authentication failed: " ++ m) "azure_auth"
  | .httpResponseError sc m =>
      if sc = 403 then
        .permissionError ("Insufficient permissions to access private endpoints: " ++ m)
          "Microsoft.Storage/storageAccounts/privateEndpointConnections/read"
      else if sc = 404 then
        .azureAPIError ("Storage account not found: " ++ account_name) (some 404)
      else .azureAPIError ("Azure API error: " ++ m) (some sc)
  | e => .mcpError ("Unexpected error: " ++ e.str)

/-- NetworkRulesTools.get_private_endpoints. -/
def get_private_endpoints (req : GetPrivateEndpointsRequest)
    (env : PrivateEndpointsProviderEnv) (md : ResponseMetadata) :
    Except PyExn GetPrivateEndpointsResponse :=
  match get_private_endpoints_body req env md with
  | .ok r => .ok r
  | .error e => .error (privateEndpointsExceptChain req.account_name e)

/-! ## Metrics tool (tools/metrics.py).  Query times are integer epoch
seconds; `fetch` mirrors `client.metrics.list` (resource uri, timespan,
interval, metric name, aggregation), `definitions` mirrors
`client.metric_definitions.list`. -/

/-- The provider calls get_storage_metrics can issue. -/
structure MetricsProviderEnv where
  getClient : Except PyExn Unit
  definitions : String → Except PyExn (List AzMetricDefinition)
  fetch : String → String → String → String → String → Except PyExn AzMetricResult

/-- MetricsTools._parse_time_range (lookback from `end_time`; anything
unrecognized defaults to one hour). -/
def parse_time_range (time_range : String) (end_time : Int) : Int :=
  if time_range = "1h" then end_time - 3600
  else if time_range = "24h" then end_time - 24 * 3600
  else if time_range = "7d" then end_time - 7 * 86400
  else if time_range = "30d" then end_time - 30 * 86400
  else end_time - 3600

/-- MetricsTools._has_metric_value. -/
def has_metric_value (data_point : AzDataPoint) (aggregation_type : String) : Bool :=
  if pyLower aggregation_type = "average" then data_point.average.isSome
  else if pyLower aggregation_type = "total" then data_point.total.isSome
  else if pyLower aggregation_type = "maximum" then data_point.maximum.isSome
  else if pyLower aggregation_type = "minimum" then data_point.minimum.isSome
  else if pyLower aggregation_type = "count" then data_point.count.isSome
  else data_point.average.isSome

/-- MetricsTools._get_metric_value (`x or 0` on an optional float). -/
def get_metric_value (data_point : AzDataPoint) (aggregation_type : String) : ℚ :=
  if pyLower aggregation_type = "average" then data_point.average.getD 0
  else if pyLower aggregation_type = "total" then data_point.total.getD 0
  else if pyLower aggregation_type = "maximum" then data_point.maximum.getD 0
  else if pyLower aggregation_type = "minimum" then data_point.minimum.getD 0
  else if pyLower aggregation_type = "count" then data_point.count.getD 0
  else data_point.average.getD 0

/-- The data points of one metrics.list result in iteration order, each
paired with the unit of its enclosing metric (the triple nested loop of
get_storage_metrics). -/
def metricFlatPoints (r : AzMetricResult) : List (AzValue × AzDataPoint) :=
  r.value.flatMap fun m => m.timeseries.flatMap fun ts => ts.data.map fun dp => (m.unit, dp)

/-- Accumulator of the data-point loop: collected points, running total and
count. -/
structure MetricAccum where
  points : List MetricDataPoint
  total : ℚ
  count : Nat
  deriving DecidableEq, Repr

/-- One step of the data-point loop: keep points that carry a timestamp and
a value for the requested aggregation type. -/
def metricStep (aggregation_type : String) (acc : MetricAccum)
    (p : AzValue × AzDataPoint) : MetricAccum :=
  if p.2.time_stamp.isSome && has_metric_value p.2 aggregation_type then
    let value := get_metric_value p.2 aggregation_type
    { points := acc.points ++
        [{ timestamp := p.2.time_stamp.getD ""
           value := value
           unit := p.1.render
           aggregation_type := aggregation_type }]
      total := acc.total + value
      count := acc.count + 1 }
  else acc

/-- The per-metric processing of get_storage_metrics (lines 88-109): the
collected data points and the aggregated value (mean of the collected
values, 0 when none). -/
def processMetricResult (aggregation_type : String) (r : AzMetricResult) :
    List MetricDataPoint × ℚ :=
  let fin := (metricFlatPoints r).foldl (metricStep aggregation_type)
    { points := [], total := 0, count := 0 }
  (fin.points, if fin.count > 0 then fin.total / fin.count else 0)

/-- Normalization of one metric definition
(MetricsTools._get_available_metrics, lines 178-189). -/
def buildMetricDefinition (definition : AzMetricDefinition) : MetricDefinition :=
  { name := definition.name.render
    display_name := definition.display_name
    description := definition.display_description.getD ""
    unit := definition.unit.render
    primary_aggregation_type := definition.primary_aggregation_type.render
    supported_aggregation_types := definition.supported_aggregation_types.map AzValue.render
    dimensions :=
      match definition.dimensions with
      | some ds => ds.map AzValue.render
      | none => [] }

/-- MetricsTools._get_available_metrics: any failure of the catalog call
degrades to the empty catalog. -/
def get_available_metrics (res : Except PyExn (List AzMetricDefinition)) :
    List MetricDefinition :=
  match res with
  | .ok defs => defs.map buildMetricDefinition
  | .error _ => []

/-- MetricsTools._create_metrics_summary. -/
def create_metrics_summary (request : GetStorageMetricsRequest)
    (aggregated_summary : List (String × ℚ)) : String :=
  if aggregated_summary.isEmpty then
    "No metrics data available for '" ++ request.account_name ++
      "' in the last " ++ request.time_range
  else
    let metrics_text := aggregated_summary.map fun p =>
      if p.1 = "UsedCapacity" then
        p.1 ++ ": " ++ formatFixed (p.2 / (1024 * 1024 * 1024)) 2 ++ " GB"
      else if p.1 = "Transactions" then
        p.1 ++ ": " ++ formatFixed p.2 0
      else
        p.1 ++ ": " ++ formatFixed p.2 2
    "Metrics for '" ++ request.account_name ++ "' over the last " ++
      request.time_range ++ " (" ++ request.aggregation_type ++ "): " ++
      String.intercalate ", " metrics_text

/-- The accumulator of the per-metric loop: the two dictionaries under
construction. -/
abbrev MetricsLoopAcc : Type :=
  List (String × List MetricDataPoint) × List (String × ℚ)

/-- One iteration of the per-metric loop of get_storage_metrics: an
`HttpResponseError` for one metric is logged and replaced by an empty
series and aggregated 0; anything else aborts the loop. -/
def metricsLoopStep (aggregation_type : String)
    (fetchOf : String → Except PyExn AzMetricResult)
    (acc : MetricsLoopAcc) (metric_name : String) : Except PyExn MetricsLoopAcc :=
  match fetchOf metric_name with
  | .ok r =>
      let pr := processMetricResult aggregation_type r
      .ok (dictInsert acc.1 metric_name pr.1, dictInsert acc.2 metric_name pr.2)
  | .error (.httpResponseError _ _) =>
      .ok (dictInsert acc.1 metric_name [], dictInsert acc.2 metric_name 0)
  | .error e => .error e

/-- The per-metric loop of get_storage_metrics (lines 78-115). -/
def metricsLoop (req : GetStorageMetricsRequest) (env : MetricsProviderEnv)
    (resource_id timespan : String) : Except PyExn MetricsLoopAcc :=
  req.metrics.foldlM
    (metricsLoopStep req.aggregation_type
      (fun metric_name =>
        env.fetch resource_id timespan req.interval metric_name req.aggregation_type))
    ([], [])

/-- The resource id get_storage_metrics builds (lines 61-65). -/
def resourceIdOf (req : GetStorageMetricsRequest) : String :=
  "/subscriptions/" ++ req.subscription_id ++
    "/resourceGroups/" ++ req.resource_group ++
    "/providers/Microsoft.Storage/storageAccounts/" ++ req.account_name

/-- The timespan string passed to every metrics.list call. -/
def timespanOf (req : GetStorageMetricsRequest) (end_time : Int) : String :=
  toString (parse_time_range req.time_range end_time) ++ "/" ++ toString end_time

/-- The try body of MetricsTools.get_storage_metrics. -/
def get_storage_metrics_body (req : GetStorageMetricsRequest)
    (env : MetricsProviderEnv) (md : ResponseMetadata) (end_time : Int) :
    Except PyExn StorageMetrics := do
  let _ ← validate_subscription_id req.subscription_id
  let _ ← validate_resource_group req.resource_group
  let _ ← validate_storage_account_name req.account_name
  let _ ← env.getClient
  let resource_id := resourceIdOf req
  let start_time_metrics := parse_time_range req.time_range end_time
  let available_metrics := get_available_metrics (env.definitions resource_id)
  let data ← metricsLoop req env resource_id (timespanOf req end_time)
  pure { account_name := req.account_name
         time_range := req.time_range
         start_time := start_time_metrics
         end_time := end_time
         metrics_data := data.1
         aggregated_summary := data.2
         available_metrics := available_metrics
         metadata := md
         summary := create_metrics_summary req data.2 }

/-- The except chain of get_storage_metrics. -/
def metricsExceptChain (account_name : String) (e : PyExn) : PyExn :=
  match e with
  | .validationError m f => .validationError m f
  | .clientAuthError m =>
      .authenticationError ("Authentication failed: " ++ m) "azure_auth"
  | .httpResponseError sc m =>
      if sc = 403 then
        .permissionError ("Insufficient permissions to access metrics: " ++ m)
          "Microsoft.Insights/metrics/read"
      else if sc = 404 then
        .azureAPIError ("Storage account not found: " ++ account_name) (some 404)
      else .azureAPIError ("Azure API error: " ++ m) (some sc)
  | e => .mcpError ("Unexpected error: " ++ e.str)

/-- MetricsTools.get_storage_metrics. -/
def get_storage_metrics (req : GetStorageMetricsRequest)
    (env : MetricsProviderEnv) (md : ResponseMetadata) (end_time : Int) :
    Except PyExn StorageMetrics :=
  match get_storage_metrics_body req env md end_time with
  | .ok r => .ok r
  | .error e => .error (metricsExceptChain req.account_name e)

/-! ## Tool dispatcher (server.py, handle_call_tool).  The try body of each
branch — pydantic request parsing, the tool call, serialization — is
modelled by its outcome, an `Except PyExn String` carrying the serialized
response text on success.  The three except branches translate the raised
exception into the returned TextContent and emit one error log record with
the raw (unsanitized) argument object as context. -/

/-- One text content item of an MCP response. -/
structure TextContent where
  type : String
  text : String
  deriving DecidableEq, Repr

/-- The outcome of each tool branch's try body (parse + invoke +
serialize). -/
structure ToolOutcomes where
  list_storage_accounts : Except PyExn String
  get_storage_account_details : Except PyExn String
  get_network_rules : Except PyExn String
  get_private_endpoints : Except PyExn String
  get_storage_metrics : Except PyExn String

/-- The name dispatch of handle_call_tool; an unknown tool name raises
AzureStorageMCPError inside the try. -/
def dispatchBody (name : String) (t : ToolOutcomes) : Except PyExn String :=
  if name = "list_storage_accounts" then t.list_storage_accounts
  else if name = "get_storage_account_details" then t.get_storage_account_details
  else if name = "get_network_rules" then t.get_network_rules
  else if name = "get_private_endpoints" then t.get_private_endpoints
  else if name = "get_storage_metrics" then t.get_storage_metrics
  else .error (.mcpError ("Unknown tool: " ++ name))

/-- The error message built by handle_call_tool's except chain: pydantic
ValidationError first, then AzureStorageMCPError (which the pipeline's own
ValidationError subclasses), then everything else. -/
def dispatchErrorMessage (e : PyExn) : String :=
  match e with
  | .pydanticValidationError m => "Validation error: " ++ m
  | e =>
      if e.isAzureStorageMCPError then "Azure Storage MCP error: " ++ e.str
      else "Unexpected error: " ++ e.str

/-- The observable outcome of one handle_call_tool invocation: the returned
content list and the error log record emitted on failure. -/
structure DispatchResult where
  contents : List TextContent
  errorLog : Option ErrorLogRecord
  deriving DecidableEq, Repr

/-- server.handle_call_tool (`ts` is the log timestamp). -/
def handle_call_tool (name : String) (t : ToolOutcomes)
    (arguments : List (String × String)) (ts : String) : DispatchResult :=
  match dispatchBody name t with
  | .ok s =>
      { contents := [{ type := "text", text := s }], errorLog := none }
  | .error e =>
      { contents := [{ type := "text", text := "ERROR: " ++ dispatchErrorMessage e }]
        errorLog := some (log_error_record ts e
          { tool := name, arguments := arguments }) }

/-! ## Specification-side definitions.  These are written from the wording
of the specification sentences under scrutiny (not from the code) and are
compared against the embedded operations in the theorems below. -/

/-- Claim wording: the canonical UUID shape — 8-4-4-4-12 hexadecimal
groups, compared case-insensitively. -/
def canonicalUuidShape (s : String) : Bool :=
  matchesUuidCore (pyLower s)

/-- Amended acceptance condition for subscription ids: the canonical shape,
or the canonical shape followed by exactly one trailing newline (the
behaviour Python's `$` anchor produces). -/
def amendedUuidAccepts (s : String) : Bool :=
  matchesUuidCore (pyLower s) ||
    (pyEndsWithChar (pyLower s) '\n' && matchesUuidCore (pyDropLast (pyLower s)))

/-- Spec wording: the default network configuration reported when an
account carries no network rule set. -/
def defaultNetworkConfiguration : NetworkConfiguration :=
  { default_action := "Allow"
    ip_rules := []
    virtual_network_rules := []
    resource_access_rules := []
    bypass := "AzureServices" }

/-- Spec wording: the number of listed accounts whose region is `loc`. -/
def specRegionCount (accounts : List StorageAccountSummary) (loc : String) : Nat :=
  (accounts.filter fun a => a.location = loc).length

/-- Claim wording for the metrics summary entries: `UsedCapacity` divided
by 1024³ and rendered with two decimals plus " GB", `Transactions` with
zero decimals, anything else with two decimals. -/
def specMetricEntry (p : String × ℚ) : String :=
  if p.1 = "UsedCapacity" then
    p.1 ++ ": " ++ formatFixed (p.2 / (1024 : ℚ) ^ 3) 2 ++ " GB"
  else if p.1 = "Transactions" then
    p.1 ++ ": " ++ formatFixed p.2 0
  else
    p.1 ++ ": " ++ formatFixed p.2 2

/-- Arithmetic mean of a list of values, 0 when the list is empty. -/
def specMean (l : List ℚ) : ℚ :=
  if l.length > 0 then l.sum / l.length else 0

/-- All data points of a metrics.list result, in iteration order. -/
def allDataPoints (r : AzMetricResult) : List AzDataPoint :=
  r.value.flatMap fun m => m.timeseries.flatMap fun ts => ts.data

/-- Claim wording (as stated): the values of the data points that carry a
value for the requested aggregation type. -/
def claimEligibleValues (aggregation_type : String) (r : AzMetricResult) : List ℚ :=
  ((allDataPoints r).filter fun dp => has_metric_value dp aggregation_type).map
    fun dp => get_metric_value dp aggregation_type

/-- Amended wording: the values of the data points that carry a timestamp
and a value for the requested aggregation type. -/
def amendedEligibleValues (aggregation_type : String) (r : AzMetricResult) : List ℚ :=
  ((allDataPoints r).filter fun dp =>
    dp.time_stamp.isSome && has_metric_value dp aggregation_type).map
    fun dp => get_metric_value dp aggregation_type

/-- The aggregation types the metrics tool recognizes. -/
def recognizedAggregations : List String :=
  ["average", "total", "maximum", "minimum", "count"]

/-- Amended dispatcher categorization: pydantic schema/parse validation
errors get the `Validation error:` prefix; every error of the program's own
taxonomy — its pipeline `ValidationError` included, since it subclasses
`AzureStorageMCPError` — gets `Azure Storage MCP error:`; everything else
gets `Unexpected error:`. -/
def amendedErrorText (e : PyExn) : String :=
  match e with
  | .pydanticValidationError m => "Validation error: " ++ m
  | .mcpError m => "Azure Storage MCP error: " ++ m
  | .authenticationError m _ => "Azure Storage MCP error: " ++ m
  | .permissionError m _ => "Azure Storage MCP error: " ++ m
  | .validationError m _ => "Azure Storage MCP error: " ++ m
  | .azureAPIError m _ => "Azure Storage MCP error: " ++ m
  | .clientAuthError m => "Unexpected error: " ++ m
  | .httpResponseError _ m => "Unexpected error: " ++ m
  | .attributeError m => "Unexpected error: " ++ m
  | .otherError m => "Unexpected error: " ++ m

/-- The fixed redaction marker of the claim. -/
def specRedactionMarker : String := "***REDACTED***"

/-- Two parameter dictionaries with the same keys in the same order whose
non-sensitive values agree (they may differ arbitrarily on sensitive
values). -/
def sanitizeAgree (p q : List (String × String)) : Prop :=
  List.Forall₂ (fun a b : String × String =>
    a.1 = b.1 ∧ (isSensitiveKey a.1 = false → a.2 = b.2)) p q

/-! ## Result projections used to state the claims without binders. -/

/-- The result is a `ValidationError` naming the given field. -/
def exceptValidationErrorNaming {α : Type} (field : String) :
    Except PyExn α → Bool
  | .error (.validationError _ f) => f = field
  | _ => false

/-- The listing provider call list_storage_accounts issues for a request
(by resource group when one is given, across the subscription otherwise). -/
def listingCall (req : ListStorageAccountsRequest) (env : ListProviderEnv) :
    Except PyExn (List AzAccount) :=
  if pyOptStrTruthy req.resource_group then
    env.listByRG (req.resource_group.getD "")
  else env.listAll

/-- The metrics operation succeeded. -/
def metricsIsOk : Except PyExn StorageMetrics → Bool
  | .ok _ => true
  | .error _ => false

/-- Aggregated summary entry of a successful metrics response. -/
def metricsAgg : Except PyExn StorageMetrics → String → Option ℚ
  | .ok s, m => lookupA s.aggregated_summary m
  | .error _, _ => none

/-- Data-point series of a successful metrics response. -/
def metricsDataFor : Except PyExn StorageMetrics → String → Option (List MetricDataPoint)
  | .ok s, m => lookupA s.metrics_data m
  | .error _, _ => none

/-- Available-metrics catalog of a successful metrics response. -/
def metricsAvailableOf : Except PyExn StorageMetrics → Option (List MetricDefinition)
  | .ok s => some s.available_metrics
  | .error _ => none

/-- Every listed metric has an aggregated entry in a successful response. -/
def metricsAllPresent (r : Except PyExn StorageMetrics) (ms : List String) : Bool :=
  match r with
  | .ok s => ms.all fun m => (lookupA s.aggregated_summary m).isSome
  | .error _ => false

/-- Network configuration of a successful details response. -/
def detailsNetConfig : Except PyExn StorageAccountDetails → Option NetworkConfiguration
  | .ok d => some d.network_configuration
  | .error _ => none

/-- A per-metric fetch outcome the loop absorbs or consumes (success or an
HTTP-level failure). -/
def absorbableFetch : Except PyExn AzMetricResult → Bool
  | .ok _ => true
  | .error (.httpResponseError _ _) => true
  | .error _ => false

/-- The aggregated value the per-metric loop records for a fetch outcome. -/
def loopAggValue (aggregation_type : String) : Except PyExn AzMetricResult → ℚ
  | .ok r => (processMetricResult aggregation_type r).2
  | .error _ => 0

/-- The data-point series the per-metric loop records for a fetch outcome. -/
def loopDataValue (aggregation_type : String) :
    Except PyExn AzMetricResult → List MetricDataPoint
  | .ok r => (processMetricResult aggregation_type r).1
  | .error _ => []

/-! ## Concrete fixtures for counterexamples and witnesses. -/

/-- A well-formed subscription id. -/
def sampleSub : String := "12345678-1234-1234-1234-123456789012"

/-- Response metadata fixture (correlation id and timing are effectful
inputs of every operation). -/
def sampleMd : ResponseMetadata :=
  { timestamp := "2025-01-01T00:00:00Z"
    correlation_id := "cid-1"
    request_id := none
    execution_time_ms := some 7 }

/-- Account properties fixture carrying no network rule set. -/
def sampleAccountProps : AzAccountProps :=
  { name := "acct1"
    location := "eastus"
    sku := { name := "Standard_LRS" }
    kind := .enumVal "StorageV2"
    access_tier := none
    creation_time := "2024-01-01T00:00:00Z"
    last_modified_time := none
    provisioning_state := .enumVal "Succeeded"
    primary_location := "eastus"
    secondary_location := none
    status_of_primary := .enumVal "available"
    status_of_secondary := none
    primary_endpoints := { blob := "b", queue := "q", table := "t", file := "f" }
    secondary_endpoints := none
    enable_https_traffic_only := true
    allow_blob_public_access := false
    allow_shared_key_access := true
    allow_cross_tenant_replication := false
    public_network_access := none
    minimum_tls_version := none
    encryption := none
    network_rule_set := none }

/-- get_network_rules request fixture. -/
def sampleNRReq : GetNetworkRulesRequest :=
  { subscription_id := sampleSub, resource_group := "rg1", account_name := "acct1" }

/-- Network-rules environment whose account has no network rule set. -/
def sampleNetworkEnvNone : NetworkProviderEnv :=
  { getClient := .ok (), getProps := .ok sampleAccountProps }

/-- Network-rules environment whose get_properties call fails with 403. -/
def sampleNetworkEnv403 : NetworkProviderEnv :=
  { getClient := .ok (), getProps := .error (.httpResponseError 403 "forbidden") }

/-- Details request fixture. -/
def sampleDetailsReq : GetStorageAccountDetailsRequest :=
  { subscription_id := sampleSub
    resource_group := "rg1"
    account_name := "acct1"
    include_keys := false }

/-- Details environment whose account has no network rule set (blob call
failing, exercising the optional-sub-call default). -/
def sampleDetailsEnvNone : DetailsProviderEnv :=
  { getClient := .ok ()
    getProps := .ok sampleAccountProps
    getBlobProps := .error (.httpResponseError 404 "no blob props") }

/-- Details environment whose get_properties call fails with 403. -/
def sampleDetailsEnv403 : DetailsProviderEnv :=
  { getClient := .ok ()
    getProps := .error (.httpResponseError 403 "forbidden")
    getBlobProps := .error (.otherError "unused") }

/-- Listing request fixture (no resource group). -/
def sampleListReq : ListStorageAccountsRequest :=
  { subscription_id := sampleSub, resource_group := none, include_deleted := false }

/-- Listing environment whose subscription-wide listing fails with 403. -/
def sampleListEnv403 : ListProviderEnv :=
  { getClient := .ok ()
    listAll := .error (.httpResponseError 403 "forbidden")
    listByRG := fun _ => .error (.httpResponseError 403 "forbidden") }

/-- Private-endpoints request fixture. -/
def sampleGPEReq : GetPrivateEndpointsRequest :=
  { subscription_id := sampleSub, resource_group := "rg1", account_name := "acct1" }

/-- Private-endpoints environment whose connection listing fails with 404. -/
def samplePeEnv404 : PrivateEndpointsProviderEnv :=
  { getClient := .ok (), connections := .error (.httpResponseError 404 "not found") }

/-- Private-endpoints environment whose connection listing fails with 500. -/
def samplePeEnv500 : PrivateEndpointsProviderEnv :=
  { getClient := .ok (), connections := .error (.httpResponseError 500 "boom") }

/-- Private-endpoints environment whose connection listing fails with 403. -/
def samplePeEnv403 : PrivateEndpointsProviderEnv :=
  { getClient := .ok (), connections := .error (.httpResponseError 403 "forbidden") }

/-- Metrics request fixture over the given metric names. -/
def sampleMetricsReq (metrics : List String) : GetStorageMetricsRequest :=
  { subscription_id := sampleSub
    resource_group := "rg1"
    account_name := "acct1"
    time_range := "1h"
    metrics := metrics
    aggregation_type := "Average"
    interval := "PT1H" }

/-- Metrics environment in which every provider call fails with 403. -/
def sampleMetricsEnv403 : MetricsProviderEnv :=
  { getClient := .ok ()
    definitions := fun _ => .error (.httpResponseError 403 "forbidden")
    fetch := fun _ _ _ _ _ => .error (.httpResponseError 403 "forbidden") }

/-- Metrics environment in which fetching any metric raises a client
authentication error. -/
def sampleMetricsEnvAuth : MetricsProviderEnv :=
  { getClient := .ok ()
    definitions := fun _ => .ok []
    fetch := fun _ _ _ _ _ => .error (.clientAuthError "token expired") }

/-- A data point carrying an average value but no timestamp. -/
def dpNoTs : AzDataPoint :=
  { time_stamp := none
    average := some 5
    total := none
    maximum := none
    minimum := none
    count := none }

/-- A data point carrying a timestamp and an average value. -/
def dpWithTs : AzDataPoint :=
  { time_stamp := some "2025-01-01T00:00:00Z"
    average := some 3
    total := none
    maximum := none
    minimum := none
    count := none }

/-- A metrics.list result holding the two data points above. -/
def sampleMetricResult : AzMetricResult :=
  { value := [{ unit := .enumVal "Bytes", timeseries := [{ data := [dpNoTs, dpWithTs] }] }] }

/-- Metrics environment returning `sampleMetricResult` for every fetch. -/
def sampleMetricsEnvC7 : MetricsProviderEnv :=
  { getClient := .ok ()
    definitions := fun _ => .ok []
    fetch := fun _ _ _ _ _ => .ok sampleMetricResult }

/-- Tool outcomes in which get_network_rules raised the pipeline's own
ValidationError and every other branch succeeded. -/
def sampleOutcomesValidation : ToolOutcomes :=
  { list_storage_accounts := .ok "{}"
    get_storage_account_details := .ok "{}"
    get_network_rules :=
      .error (.validationError "Subscription ID cannot be empty" "subscription_id")
    get_private_endpoints := .ok "{}"
    get_storage_metrics := .ok "{}" }

/-- Argument dictionary carrying one sensitive key. -/
def argsWithSecret : List (String × String) :=
  [("subscription_id", sampleSub), ("account_key", "hunter2")]

/-- Listing environment that returns no accounts. -/
def sampleListEnvEmpty : ListProviderEnv :=
  { getClient := .ok ()
    listAll := .ok []
    listByRG := fun _ => .ok [] }

/-- Listing request with a syntactically invalid subscription id. -/
def sampleBadListReq : ListStorageAccountsRequest :=
  { subscription_id := "not-a-uuid", resource_group := none, include_deleted := false }

/-- The argument dictionary of `argsWithSecret` with a different sensitive
value. -/
def argsWithSecret2 : List (String × String) :=
  [("subscription_id", sampleSub), ("account_key", "swordfish")]

/-- A listed-account summary fixture in the given region. -/
def sampleSummary (loc : String) : StorageAccountSummary :=
  { name := "acct1"
    resource_group := "rg1"
    location := loc
    sku := "Standard_LRS"
    kind := "StorageV2"
    access_tier := none
    creation_time := "2024-01-01T00:00:00Z"
    last_modified_time := "2024-01-01T00:00:00Z"
    provisioning_state := "Succeeded"
    status_of_primary := "available"
    status_of_secondary := none }

/-! ## Helper lemmas about the dictionary, sorting and fold primitives. -/

theorem exceptBind_ok {α β : Type} (a : α) (f : α → Except PyExn β) :
    (Except.ok a >>= f) = f a := rfl

theorem exceptBind_err {α β : Type} (e : PyExn) (f : α → Except PyExn β) :
    ((Except.error e : Except PyExn α) >>= f) = Except.error e := rfl

theorem exceptPure {α : Type} (a : α) : (pure a : Except PyExn α) = Except.ok a := rfl

theorem lookupA_dictInsert_self {α : Type} (m : List (String × α)) (k : String) (v : α) :
    lookupA (dictInsert m k v) k = some v := by
  induction m with
  | nil => simp [dictInsert, lookupA]
  | cons p t ih =>
      by_cases h : p.1 = k
      · obtain ⟨a, b⟩ := p
        simp only [dictInsert]
        simp only at h
        simp [h, lookupA]
      · obtain ⟨a, b⟩ := p
        simp only at h
        simp [dictInsert, h, lookupA, ih]

theorem lookupA_dictInsert_ne {α : Type} (m : List (String × α)) (k k' : String) (v : α)
    (h : k' ≠ k) : lookupA (dictInsert m k v) k' = lookupA m k' := by
  induction m with
  | nil => simp [dictInsert, lookupA, Ne.symm h]
  | cons p t ih =>
      obtain ⟨a, b⟩ := p
      by_cases ha : a = k
      · simp [dictInsert, ha, lookupA, Ne.symm h]
      · simp only [dictInsert, ha, if_false]
        by_cases ha' : a = k'
        · simp [lookupA, ha']
        · simp [lookupA, ha', ih]

theorem lookupA_mem {α : Type} (m : List (String × α)) (k : String) (v : α)
    (h : lookupA m k = some v) : (k, v) ∈ m := by
  induction m with
  | nil => simp [lookupA] at h
  | cons p t ih =>
      obtain ⟨a, b⟩ := p
      by_cases ha : a = k
      · simp [lookupA, ha] at h
        simp [ha, h]
      · simp [lookupA, ha] at h
        simp [ih h]

theorem keys_dictInsert_sub {α : Type} (m : List (String × α)) (k : String) (v : α) :
    ∀ x, x ∈ (dictInsert m k v).map Prod.fst → x ∈ m.map Prod.fst ∨ x = k := by
  induction m with
  | nil => simp [dictInsert]
  | cons p t ih =>
      obtain ⟨a, b⟩ := p
      by_cases ha : a = k
      · intro x hx
        simp [dictInsert, ha] at hx
        rcases hx with hx | hx
        · right; exact hx
        · left; simp [hx]
      · intro x hx
        simp [dictInsert, ha] at hx
        rcases hx with hx | hx
        · left; simp [hx]
        · rcases ih x (by simpa using hx) with h | h
          · left; simp [h]
          · right; exact h

theorem nodupKeys_dictInsert {α : Type} (m : List (String × α)) (k : String) (v : α)
    (h : (m.map Prod.fst).Nodup) : ((dictInsert m k v).map Prod.fst).Nodup := by
  induction m with
  | nil => simp [dictInsert]
  | cons p t ih =>
      obtain ⟨a, b⟩ := p
      simp only [List.map_cons, List.nodup_cons] at h
      by_cases ha : a = k
      · simp only [dictInsert, ha, if_true, List.map_cons, List.nodup_cons]
        exact ⟨by simpa [ha] using h.1, h.2⟩
      · simp only [dictInsert, ha, if_false, List.map_cons, List.nodup_cons]
        refine ⟨?_, ih h.2⟩
        intro hmem
        rcases keys_dictInsert_sub t k v a hmem with hh | hh
        · exact h.1 hh
        · exact ha hh

theorem lookupA_of_mem_nodup {α : Type} (m : List (String × α)) (p : String × α)
    (hn : (m.map Prod.fst).Nodup) (h : p ∈ m) : lookupA m p.1 = some p.2 := by
  induction m with
  | nil => simp at h
  | cons q t ih =>
      obtain ⟨a, b⟩ := q
      simp only [List.map_cons, List.nodup_cons] at hn
      rcases List.mem_cons.mp h with h1 | h1
      · rw [h1]; simp [lookupA]
      · have hne : a ≠ p.1 := by
          intro he
          exact hn.1 (he ▸ (List.mem_map.mpr ⟨p, h1, rfl⟩))
        simp [lookupA, hne, ih hn.2 h1]

theorem charsLe_total (xs ys : List Char) (h : charsLe xs ys = false) :
    charsLe ys xs = true := by
  induction xs generalizing ys with
  | nil => simp [charsLe] at h
  | cons a as ih =>
      cases ys with
      | nil => simp [charsLe]
      | cons b bs =>
          by_cases hab : a = b
          · subst hab
            simp only [charsLe, if_pos rfl] at h ⊢
            exact ih bs h
          · have hba : b ≠ a := Ne.symm hab
            simp only [charsLe, if_neg hab] at h
            simp only [charsLe, if_neg hba]
            have hna : ¬ a.toNat < b.toNat := by simpa using h
            have hne : a.toNat ≠ b.toNat := by
              intro he
              exact hab (Char.ext (by
                have : a.val.toNat = b.val.toNat := he
                exact UInt32.toNat.inj this))
            have : b.toNat < a.toNat := by omega
            simpa using this

theorem pyStrLe_total (a b : String) (h : pyStrLe a b = false) :
    pyStrLe b a = true :=
  charsLe_total a.data b.data h

theorem sortedInsertPair_perm {α : Type} (p : String × α) (l : List (String × α)) :
    (sortedInsertPair p l).Perm (p :: l) := by
  induction l with
  | nil => simp [sortedInsertPair]
  | cons q t ih =>
      by_cases h : pyStrLe p.1 q.1
      · simp [sortedInsertPair, h]
      · simp only [sortedInsertPair, h, Bool.false_eq_true, if_false]
        exact (List.Perm.cons q ih).trans (List.Perm.swap p q t)

theorem sortPairsByKey_perm {α : Type} (l : List (String × α)) :
    (sortPairsByKey l).Perm l := by
  induction l with
  | nil => simp [sortPairsByKey]
  | cons p t ih =>
      exact (sortedInsertPair_perm p (sortPairsByKey t)).trans (List.Perm.cons p ih)

theorem sortedByKeyB_of_cons {α : Type} (q : String × α) (l : List (String × α))
    (h : sortedByKeyB (q :: l) = true) : sortedByKeyB l = true := by
  cases l with
  | nil => simp [sortedByKeyB]
  | cons r t =>
      simp only [sortedByKeyB, Bool.and_eq_true, decide_eq_true_eq] at h
      exact h.2

theorem sortedInsertPair_sorted {α : Type} (p : String × α) (l : List (String × α))
    (h : sortedByKeyB l = true) : sortedByKeyB (sortedInsertPair p l) = true := by
  induction l with
  | nil => simp [sortedInsertPair, sortedByKeyB]
  | cons q t ih =>
      by_cases hpq : pyStrLe p.1 q.1 = true
      · have h1 : sortedByKeyB (p :: q :: t) =
            (pyStrLe p.1 q.1 && sortedByKeyB (q :: t)) := rfl
        simp [sortedInsertPair, hpq, h1, h]
      · have hpq' : pyStrLe p.1 q.1 = false := by simpa using hpq
        have hqp : pyStrLe q.1 p.1 = true := pyStrLe_total _ _ hpq'
        have ht := sortedByKeyB_of_cons q t h
        have hins := ih ht
        simp only [sortedInsertPair, hpq', Bool.false_eq_true, if_false]
        cases t with
        | nil => simp [sortedInsertPair, sortedByKeyB, hqp]
        | cons r s =>
            by_cases hpr : pyStrLe p.1 r.1 = true
            · have h1 : sortedByKeyB (q :: p :: r :: s) =
                  (pyStrLe q.1 p.1 && sortedByKeyB (p :: r :: s)) := rfl
              have h2 : sortedByKeyB (p :: r :: s) = true := by
                simpa [sortedInsertPair, hpr] using hins
              simp [sortedInsertPair, hpr, h1, hqp, h2]
            · have hpr' : pyStrLe p.1 r.1 = false := by simpa using hpr
              have hqr : pyStrLe q.1 r.1 = true := by
                have h' := h
                rw [show sortedByKeyB (q :: r :: s) =
                    (pyStrLe q.1 r.1 && sortedByKeyB (r :: s)) from rfl] at h'
                exact ((Bool.and_eq_true _ _).mp h').1
              have h3 : sortedByKeyB (r :: sortedInsertPair p s) = true := by
                simpa [sortedInsertPair, hpr'] using hins
              have h4 : sortedByKeyB (q :: r :: sortedInsertPair p s) =
                  (pyStrLe q.1 r.1 && sortedByKeyB (r :: sortedInsertPair p s)) := rfl
              simp [sortedInsertPair, hpr', h4, hqr, h3]

theorem sortPairsByKey_sorted {α : Type} (l : List (String × α)) :
    sortedByKeyB (sortPairsByKey l) = true := by
  induction l with
  | nil => simp [sortPairsByKey, sortedByKeyB]
  | cons p t ih => exact sortedInsertPair_sorted p (sortPairsByKey t) ih

theorem locationCounts_fold (accounts : List StorageAccountSummary)
    (init : List (String × Nat)) (l : String) :
    (lookupA (accounts.foldl
        (fun locs a => dictInsert locs a.location ((lookupA locs a.location).getD 0 + 1))
        init) l).getD 0 =
      (lookupA init l).getD 0 + specRegionCount accounts l := by
  induction accounts generalizing init with
  | nil => simp [specRegionCount]
  | cons a t ih =>
      simp only [List.foldl_cons]
      rw [ih]
      by_cases hl : a.location = l
      · rw [hl, lookupA_dictInsert_self]
        simp [specRegionCount, List.filter_cons, hl]
        omega
      · rw [lookupA_dictInsert_ne _ _ _ _ (by simpa using Ne.symm hl)]
        simp [specRegionCount, List.filter_cons, hl]

theorem locationCounts_lookup (accounts : List StorageAccountSummary) (l : String) :
    (lookupA (locationCounts accounts) l).getD 0 = specRegionCount accounts l := by
  simpa [lookupA] using locationCounts_fold accounts [] l

theorem locationCounts_nodup_aux (accounts : List StorageAccountSummary)
    (init : List (String × Nat)) (h : (init.map Prod.fst).Nodup) :
    ((accounts.foldl
        (fun locs a => dictInsert locs a.location ((lookupA locs a.location).getD 0 + 1))
        init).map Prod.fst).Nodup := by
  induction accounts generalizing init with
  | nil => simpa using h
  | cons a t ih =>
      simp only [List.foldl_cons]
      exact ih _ (nodupKeys_dictInsert _ _ _ h)

theorem locationCounts_nodup (accounts : List StorageAccountSummary) :
    ((locationCounts accounts).map Prod.fst).Nodup :=
  locationCounts_nodup_aux accounts [] (by simp)

theorem metricFold_spec (agg : String) (ps : List (AzValue × AzDataPoint))
    (acc : MetricAccum) :
    (ps.foldl (metricStep agg) acc).total =
      acc.total + ((ps.filter fun p =>
        p.2.time_stamp.isSome && has_metric_value p.2 agg).map fun p =>
          get_metric_value p.2 agg).sum ∧
    (ps.foldl (metricStep agg) acc).count =
      acc.count + ((ps.filter fun p =>
        p.2.time_stamp.isSome && has_metric_value p.2 agg).map fun p =>
          get_metric_value p.2 agg).length := by
  induction ps generalizing acc with
  | nil => simp
  | cons p t ih =>
      simp only [List.foldl_cons, List.filter_cons]
      by_cases hc : (p.2.time_stamp.isSome && has_metric_value p.2 agg) = true
      · have htot : (metricStep agg acc p).total =
            acc.total + get_metric_value p.2 agg := by
          simp [metricStep, hc]
        have hcnt : (metricStep agg acc p).count = acc.count + 1 := by
          simp [metricStep, hc]
        rcases ih (metricStep agg acc p) with ⟨iht, ihc⟩
        constructor
        · rw [iht, htot]
          simp only [hc, if_true, List.map_cons, List.sum_cons]
          ring
        · rw [ihc, hcnt]
          simp only [hc, if_true, List.map_cons, List.length_cons]
          omega
      · have hstep : metricStep agg acc p = acc := by
          simp [metricStep, hc]
        rw [hstep]
        rcases ih acc with ⟨iht, ihc⟩
        simp only [hc, Bool.false_eq_true, if_false]
        exact ⟨iht, ihc⟩

theorem filter_map_snd {α β γ : Type} (ps : List (α × β)) (P : β → Bool) (g : β → γ) :
    ((ps.filter fun p => P p.2).map fun p => g p.2) =
      ((ps.map Prod.snd).filter P).map g := by
  induction ps with
  | nil => simp
  | cons p t ih =>
      by_cases h : P p.2
      · simp [List.filter_cons, h, ih]
      · simp [List.filter_cons, h, ih]

theorem metricFlatPoints_snd (r : AzMetricResult) :
    (metricFlatPoints r).map Prod.snd = allDataPoints r := by
  simp [metricFlatPoints, allDataPoints, List.map_flatMap, List.map_map, Function.comp]

theorem processMetricResult_eq_specMean (agg : String) (r : AzMetricResult) :
    (processMetricResult agg r).2 = specMean (amendedEligibleValues agg r) := by
  have hvals :
      ((metricFlatPoints r).filter (fun p =>
        p.2.time_stamp.isSome && has_metric_value p.2 agg)).map
          (fun p => get_metric_value p.2 agg) = amendedEligibleValues agg r := by
    have h1 := filter_map_snd (metricFlatPoints r)
      (fun dp => dp.time_stamp.isSome && has_metric_value dp agg)
      (fun dp => get_metric_value dp agg)
    rw [metricFlatPoints_snd] at h1
    exact h1
  rcases metricFold_spec agg (metricFlatPoints r)
    { points := [], total := 0, count := 0 } with ⟨ht, hc⟩
  simp only [processMetricResult]
  rw [ht, hc, hvals]
  simp [specMean]

theorem metricsLoop_fold (agg : String) (f : String → Except PyExn AzMetricResult)
    (ms : List String) (acc : MetricsLoopAcc)
    (h : ∀ m ∈ ms, absorbableFetch (f m) = true) :
    ∃ d, ms.foldlM (metricsLoopStep agg f) acc = .ok d ∧
      (∀ m, lookupA d.1 m =
        (if m ∈ ms then some (loopDataValue agg (f m)) else lookupA acc.1 m)) ∧
      (∀ m, lookupA d.2 m =
        (if m ∈ ms then some (loopAggValue agg (f m)) else lookupA acc.2 m)) := by
  induction ms generalizing acc with
  | nil =>
      refine ⟨acc, rfl, ?_, ?_⟩ <;> intro m <;> simp
  | cons m0 rest ih =>
      have h0 : absorbableFetch (f m0) = true := h m0 (List.mem_cons_self m0 rest)
      have hrest : ∀ m ∈ rest, absorbableFetch (f m) = true :=
        fun m hm => h m (List.mem_cons_of_mem m0 hm)
      have step :
          ∃ acc1 : MetricsLoopAcc,
            metricsLoopStep agg f acc m0 = .ok acc1 ∧
            acc1.1 = dictInsert acc.1 m0 (loopDataValue agg (f m0)) ∧
            acc1.2 = dictInsert acc.2 m0 (loopAggValue agg (f m0)) := by
        cases hf : f m0 with
        | ok r =>
            refine ⟨(dictInsert acc.1 m0 (processMetricResult agg r).1,
              dictInsert acc.2 m0 (processMetricResult agg r).2), ?_, ?_, ?_⟩
            · simp [metricsLoopStep, hf]
            · simp [loopDataValue, hf]
            · simp [loopAggValue, hf]
        | error e =>
            cases e with
            | httpResponseError sc msg =>
                refine ⟨(dictInsert acc.1 m0 [], dictInsert acc.2 m0 0), ?_, ?_, ?_⟩
                · simp [metricsLoopStep, hf]
                · simp [loopDataValue, hf]
                · simp [loopAggValue, hf]
            | mcpError msg => simp [absorbableFetch, hf] at h0
            | authenticationError msg am => simp [absorbableFetch, hf] at h0
            | permissionError msg rp => simp [absorbableFetch, hf] at h0
            | validationError msg fn => simp [absorbableFetch, hf] at h0
            | azureAPIError msg sc => simp [absorbableFetch, hf] at h0
            | pydanticValidationError msg => simp [absorbableFetch, hf] at h0
            | clientAuthError msg => simp [absorbableFetch, hf] at h0
            | attributeError msg => simp [absorbableFetch, hf] at h0
            | otherError msg => simp [absorbableFetch, hf] at h0
      rcases step with ⟨acc1, hstep, hacc1, hacc2⟩
      rcases ih acc1 hrest with ⟨d, hd, h1, h2⟩
      refine ⟨d, ?_, ?_, ?_⟩
      · rw [List.foldlM_cons, hstep]
        exact hd
      · intro m
        rw [h1 m]
        by_cases hmr : m ∈ rest
        · simp [hmr, List.mem_cons_of_mem m0 hmr]
        · by_cases hm0 : m = m0
          · subst hm0
            simp [hmr, hacc1, lookupA_dictInsert_self]
          · have : m ∉ (m0 :: rest) := by simp [hm0, hmr]
            simp [hmr, this, hacc1, lookupA_dictInsert_ne _ _ _ _ hm0]
      · intro m
        rw [h2 m]
        by_cases hmr : m ∈ rest
        · simp [hmr, List.mem_cons_of_mem m0 hmr]
        · by_cases hm0 : m = m0
          · subst hm0
            simp [hmr, hacc2, lookupA_dictInsert_self]
          · have : m ∉ (m0 :: rest) := by simp [hm0, hmr]
            simp [hmr, this, hacc2, lookupA_dictInsert_ne _ _ _ _ hm0]

theorem lookupA_sanitize (params : List (String × String)) (k : String) :
    lookupA (sanitize_parameters params) k =
      (lookupA params k).map fun v =>
        if isSensitiveKey k then specRedactionMarker else v := by
  induction params with
  | nil => simp [sanitize_parameters, lookupA]
  | cons p t ih =>
      obtain ⟨a, b⟩ := p
      have hhead : sanitize_parameters ((a, b) :: t) =
          (if isSensitiveKey a then (a, "***REDACTED***") else (a, b)) ::
            sanitize_parameters t := rfl
      rw [hhead]
      by_cases hs : isSensitiveKey a
      · rw [if_pos hs]
        by_cases ha : a = k
        · subst ha
          simp [lookupA, hs, specRedactionMarker]
        · simp [lookupA, ha, ih]
      · rw [if_neg hs]
        by_cases ha : a = k
        · subst ha
          have hs' : isSensitiveKey a = false := by simpa using hs
          simp [lookupA, hs']
        · simp [lookupA, ha, ih]

theorem sanitize_noninterference (p q : List (String × String))
    (h : sanitizeAgree p q) : sanitize_parameters p = sanitize_parameters q := by
  induction h with
  | nil => rfl
  | cons hab htail ih =>
      rename_i a b p' q'
      obtain ⟨hk, hv⟩ := hab
      have hrest : sanitize_parameters p' = sanitize_parameters q' := ih
      simp only [sanitize_parameters, List.map_cons] at hrest ⊢
      rw [hrest, ← hk]
      by_cases hs : isSensitiveKey a.1
      · simp [hs]
      · have hs' : isSensitiveKey a.1 = false := by simpa using hs
        simp [hs', hv hs']

/-! ## Claim C2 -/

/-- C2, counterexample: with valid identifiers and an account whose
`network_rule_set` is None, the get_network_rules operation does not return
the documented defaults — it fails with an UNKNOWN_ERROR produced from the
AttributeError raised by dereferencing the absent rule set. -/
theorem claim_C2_counterexample :
    get_network_rules sampleNRReq sampleNetworkEnvNone sampleMd =
      .error (.mcpError
        "Unexpected error: 'NoneType' object has no attribute 'default_action'") := by
  rfl

/-- C2, amended: when a storage account's provider properties carry no
network rule set, the details-building path
(`_build_network_configuration`, and the whole get_storage_account_details
operation) returns the documented defaults (default_action "Allow", empty
rule lists, bypass "AzureServices"), but the get_network_rules operation
dereferences the absent rule set and fails with an UNKNOWN_ERROR
("Unexpected error: ...") instead of returning those defaults. -/
theorem claim_C2_network_rule_defaults
    (req : GetNetworkRulesRequest) (env : NetworkProviderEnv)
    (dreq : GetStorageAccountDetailsRequest) (denv : DetailsProviderEnv)
    (md : ResponseMetadata) (props dprops : AzAccountProps)
    (h1 : validate_subscription_id req.subscription_id = .ok req.subscription_id)
    (h2 : validate_resource_group req.resource_group = .ok req.resource_group)
    (h3 : validate_storage_account_name req.account_name = .ok req.account_name)
    (h4 : env.getClient = .ok ())
    (h5 : env.getProps = .ok props)
    (h6 : props.network_rule_set = none)
    (d1 : validate_subscription_id dreq.subscription_id = .ok dreq.subscription_id)
    (d2 : validate_resource_group dreq.resource_group = .ok dreq.resource_group)
    (d3 : validate_storage_account_name dreq.account_name = .ok dreq.account_name)
    (d4 : denv.getClient = .ok ())
    (d5 : denv.getProps = .ok dprops)
    (d6 : dprops.network_rule_set = none) :
    build_network_configuration none = defaultNetworkConfiguration ∧
    get_network_rules req env md =
      .error (.mcpError
        "Unexpected error: 'NoneType' object has no attribute 'default_action'") ∧
    detailsNetConfig (get_storage_account_details dreq denv md) =
      some defaultNetworkConfiguration := by
  refine ⟨rfl, ?_, ?_⟩
  · simp [get_network_rules, get_network_rules_body, h1, h2, h3, h4, h5, h6,
      exceptBind_ok, exceptBind_err, exceptPure, networkExceptChain, PyExn.str]
  · simp [get_storage_account_details, get_storage_account_details_body,
      d1, d2, d3, d4, d5, d6, exceptBind_ok, exceptBind_err, exceptPure,
      detailsNetConfig, build_network_configuration, defaultNetworkConfiguration]

/-- Witness for C2 at concrete inputs. -/
theorem claim_C2_network_rule_defaults_witness :
    validate_subscription_id sampleNRReq.subscription_id =
      .ok sampleNRReq.subscription_id ∧
    sampleAccountProps.network_rule_set = none ∧
    (build_network_configuration none = defaultNetworkConfiguration ∧
     get_network_rules sampleNRReq sampleNetworkEnvNone sampleMd =
       .error (.mcpError
         "Unexpected error: 'NoneType' object has no attribute 'default_action'") ∧
     detailsNetConfig
         (get_storage_account_details sampleDetailsReq sampleDetailsEnvNone sampleMd) =
       some defaultNetworkConfiguration) :=
  ⟨rfl, rfl,
    claim_C2_network_rule_defaults sampleNRReq sampleNetworkEnvNone sampleDetailsReq
      sampleDetailsEnvNone sampleMd sampleAccountProps sampleAccountProps
      rfl rfl rfl rfl rfl rfl rfl rfl rfl rfl rfl rfl⟩

/-! ## Claim C10 -/

/-- C10: in get_private_endpoints, a 404 from the
private-endpoint-connections listing is absorbed — the operation succeeds
with an empty list, total_count 0 and the "No private endpoints configured"
summary — while any non-404 HTTP failure of that listing propagates to the
operation's error mapping. -/
theorem claim_C10_private_endpoints_404
    (req : GetPrivateEndpointsRequest) (env env2 : PrivateEndpointsProviderEnv)
    (md : ResponseMetadata) (m m2 : String) (sc : Nat)
    (h1 : validate_subscription_id req.subscription_id = .ok req.subscription_id)
    (h2 : validate_resource_group req.resource_group = .ok req.resource_group)
    (h3 : validate_storage_account_name req.account_name = .ok req.account_name)
    (h4 : env.getClient = .ok ())
    (h5 : env.connections = .error (.httpResponseError 404 m))
    (g4 : env2.getClient = .ok ())
    (g5 : env2.connections = .error (.httpResponseError sc m2))
    (g6 : sc ≠ 404) :
    get_private_endpoints req env md =
      .ok { private_endpoints := []
            total_count := 0
            metadata := md
            summary := "No private endpoints configured for storage account '" ++
              req.account_name ++ "'" } ∧
    get_private_endpoints req env2 md =
      .error (privateEndpointsExceptChain req.account_name
        (.httpResponseError sc m2)) := by
  constructor
  · simp [get_private_endpoints, get_private_endpoints_body, h1, h2, h3, h4, h5,
      exceptBind_ok, exceptBind_err, exceptPure, create_private_endpoints_summary]
  · simp [get_private_endpoints, get_private_endpoints_body, h1, h2, h3, g4, g5, g6,
      exceptBind_ok, exceptBind_err, exceptPure]

/-- Witness for C10 at concrete inputs. -/
theorem claim_C10_private_endpoints_404_witness :
    samplePeEnv404.connections = .error (.httpResponseError 404 "not found") ∧
    samplePeEnv500.connections = .error (.httpResponseError 500 "boom") ∧
    (get_private_endpoints sampleGPEReq samplePeEnv404 sampleMd =
       .ok { private_endpoints := []
             total_count := 0
             metadata := sampleMd
             summary := "No private endpoints configured for storage account '" ++
               sampleGPEReq.account_name ++ "'" } ∧
     get_private_endpoints sampleGPEReq samplePeEnv500 sampleMd =
       .error (privateEndpointsExceptChain sampleGPEReq.account_name
         (.httpResponseError 500 "boom"))) :=
  ⟨rfl, rfl,
    claim_C10_private_endpoints_404 sampleGPEReq samplePeEnv404 samplePeEnv500
      sampleMd "not found" "boom" 500 rfl rfl rfl rfl rfl rfl rfl (by decide)⟩

/-! ## Claim C1 -/

/-- C1, counterexample: a pipeline-raised Validation error (the program's
own ValidationError, raised for an empty subscription id) is returned with
the prefix "Azure Storage MCP error:", not "Validation error:", because
the dispatcher's first except clause catches pydantic's ValidationError,
of which the pipeline's ValidationError is not a subclass. -/
theorem claim_C1_counterexample :
    (handle_call_tool "get_network_rules" sampleOutcomesValidation [] "ts").contents =
      [{ type := "text"
         text := "ERROR: Azure Storage MCP error: Subscription ID cannot be empty" }] ∧
    "ERROR: Azure Storage MCP error: Subscription ID cannot be empty" ≠
      "ERROR: Validation error: Subscription ID cannot be empty" :=
  ⟨rfl, by decide⟩

/-- C1, amended: for every tool invocation in which the pipeline raises an
error, the dispatcher catches it and returns one well-formed text content,
prefixed "ERROR: " plus the category of the raised error — "Validation
error:" for pydantic request-parsing validation errors, "Azure Storage MCP
error:" for every error of the program's own taxonomy (the pipeline's
Validation errors included, since they subclass AzureStorageMCPError), and
"Unexpected error:" for anything else — and logs one error record. -/
theorem claim_C1_dispatcher_error_boundary (name : String) (t : ToolOutcomes)
    (arguments : List (String × String)) (ts : String) (e : PyExn)
    (h : dispatchBody name t = .error e) :
    handle_call_tool name t arguments ts =
      { contents := [{ type := "text", text := "ERROR: " ++ amendedErrorText e }]
        errorLog := some { timestamp := ts
                           event_type := "error"
                           error_type := e.typeName
                           error_message := e.str
                           context := { tool := name, arguments := arguments } } } := by
  simp only [handle_call_tool, h, log_error_record]
  cases e <;> simp [dispatchErrorMessage, amendedErrorText,
    PyExn.isAzureStorageMCPError, PyExn.str, PyExn.typeName]

/-- Witness for C1 at concrete inputs. -/
theorem claim_C1_dispatcher_error_boundary_witness :
    dispatchBody "get_network_rules" sampleOutcomesValidation =
      .error (.validationError "Subscription ID cannot be empty" "subscription_id") ∧
    handle_call_tool "get_network_rules" sampleOutcomesValidation argsWithSecret "ts" =
      { contents := [{ type := "text",
                         text := "ERROR: " ++ amendedErrorText
                           (.validationError "Subscription ID cannot be empty"
                             "subscription_id") }],
        errorLog := some { timestamp := "ts",
                           event_type := "error",
                           error_type := (PyExn.validationError
                             "Subscription ID cannot be empty"
                             "subscription_id").typeName,
                           error_message := (PyExn.validationError
                             "Subscription ID cannot be empty"
                             "subscription_id").str,
                           context := { tool := "get_network_rules",
                                        arguments := argsWithSecret } } } :=
  ⟨rfl, claim_C1_dispatcher_error_boundary "get_network_rules" sampleOutcomesValidation
    argsWithSecret "ts"
    (.validationError "Subscription ID cannot be empty" "subscription_id") rfl⟩

/-! ## Claim C9 -/

/-- C9, counterexample: a failed tool invocation logs the raw argument
dictionary — the dispatcher's error record carries the sensitive
"account_key" parameter with its real value, not the redaction marker. -/
theorem claim_C9_counterexample :
    (handle_call_tool "get_network_rules" sampleOutcomesValidation
        argsWithSecret "ts").errorLog =
      some { timestamp := "ts"
             event_type := "error"
             error_type := "ValidationError"
             error_message := "Subscription ID cannot be empty"
             context := { tool := "get_network_rules"
                          arguments := argsWithSecret } } ∧
    isSensitiveKey "account_key" = true ∧
    lookupA argsWithSecret "account_key" = some "hunter2" ∧
    "hunter2" ≠ specRedactionMarker :=
  ⟨rfl, by decide, rfl, by decide⟩

/-- C9, amended: parameter dictionaries logged through the tool-execution
record (log_tool_execution) are sanitized — every key containing a
sensitive keyword (case-insensitive substring) is rendered as the fixed
redaction marker, every other key's value passes through unchanged, and
the sanitized dictionary does not depend on the sensitive values at all
(noninterference) — but the dispatcher's failure-path error record carries
the raw, unsanitized argument dictionary. -/
theorem claim_C9_parameter_redaction
    (p q : List (String × String)) (k ts tool_name result_type name2 : String)
    (succ : Bool) (err : Option String) (t : ToolOutcomes)
    (args : List (String × String)) (ts2 : String) (e : PyExn)
    (hpq : sanitizeAgree p q)
    (hd : dispatchBody name2 t = .error e) :
    lookupA (sanitize_parameters p) k =
      (lookupA p k).map (fun v => if isSensitiveKey k then specRedactionMarker else v) ∧
    sanitize_parameters p = sanitize_parameters q ∧
    (log_tool_execution ts tool_name p result_type succ err).parameters =
      sanitize_parameters p ∧
    (handle_call_tool name2 t args ts2).errorLog =
      some { timestamp := ts2
             event_type := "error"
             error_type := e.typeName
             error_message := e.str
             context := { tool := name2, arguments := args } } :=
  ⟨lookupA_sanitize p k, sanitize_noninterference p q hpq, rfl, by
    simp [handle_call_tool, hd, log_error_record]⟩

/-- Witness for C9 at concrete inputs. -/
theorem claim_C9_parameter_redaction_witness :
    sanitizeAgree argsWithSecret argsWithSecret2 ∧
    dispatchBody "get_network_rules" sampleOutcomesValidation =
      .error (.validationError "Subscription ID cannot be empty" "subscription_id") ∧
    (lookupA (sanitize_parameters argsWithSecret) "account_key" =
      (lookupA argsWithSecret "account_key").map
        (fun v => if isSensitiveKey "account_key" then specRedactionMarker else v) ∧
    sanitize_parameters argsWithSecret = sanitize_parameters argsWithSecret2 ∧
    (log_tool_execution "ts" "list_storage_accounts" argsWithSecret
        "ListStorageAccountsResponse" true none).parameters =
      sanitize_parameters argsWithSecret ∧
    (handle_call_tool "get_network_rules" sampleOutcomesValidation
        argsWithSecret "ts2").errorLog =
      some { timestamp := "ts2"
             event_type := "error"
             error_type := (PyExn.validationError "Subscription ID cannot be empty"
               "subscription_id").typeName
             error_message := (PyExn.validationError "Subscription ID cannot be empty"
               "subscription_id").str
             context := { tool := "get_network_rules"
                          arguments := argsWithSecret } }) :=
  have hpq : sanitizeAgree argsWithSecret argsWithSecret2 :=
    List.Forall₂.cons ⟨rfl, fun _ => rfl⟩
      (List.Forall₂.cons ⟨rfl, fun h => absurd h (by decide)⟩ List.Forall₂.nil)
  ⟨hpq, rfl,
    claim_C9_parameter_redaction argsWithSecret argsWithSecret2 "account_key" "ts"
      "list_storage_accounts" "ListStorageAccountsResponse" "get_network_rules"
      true none sampleOutcomesValidation argsWithSecret "ts2"
      (.validationError "Subscription ID cannot be empty" "subscription_id")
      hpq rfl⟩

/-! ## Claim C4 -/

theorem string_eq_empty_of_data_nil (s : String) (h : s.data = []) : s = "" := by
  cases s with
  | mk d =>
      simp only at h
      rw [h]

/-- C4, counterexample: a canonical UUID followed by one trailing newline
does not match the canonical 8-4-4-4-12 shape, yet validate_subscription_id
accepts it and returns it unchanged (Python's `$` anchor also matches just
before a trailing newline). -/
theorem claim_C4_counterexample :
    canonicalUuidShape "12345678-1234-1234-1234-123456789012\n" = false ∧
    validate_subscription_id "12345678-1234-1234-1234-123456789012\n" =
      .ok "12345678-1234-1234-1234-123456789012\n" :=
  ⟨by decide, rfl⟩

/-- C4, amended: validate_subscription_id accepts exactly the strings whose
lowercase form matches the canonical UUID shape or matches it after
removing one trailing newline, returning the input unchanged; every other
string fails with a Validation error naming the subscription_id field, and
the listing operation then returns that error identically for every
provider environment (no provider call is issued). -/
theorem claim_C4_subscription_validation (s : String)
    (req : ListStorageAccountsRequest) (env env2 : ListProviderEnv)
    (md : ResponseMetadata) (hreq : req.subscription_id = s) :
    (amendedUuidAccepts s = true → validate_subscription_id s = .ok s) ∧
    (amendedUuidAccepts s = false →
      exceptValidationErrorNaming "subscription_id" (validate_subscription_id s) = true ∧
      list_storage_accounts req env md = list_storage_accounts req env2 md ∧
      exceptValidationErrorNaming "subscription_id"
        (list_storage_accounts req env md) = true) := by
  constructor
  · intro h
    have hmatch : reDollarMatch matchesUuidCore (pyLower s) = true := by
      simpa [amendedUuidAccepts, reDollarMatch] using h
    have hne : pyIsEmpty s = false := by
      by_contra hc
      have hemp : pyIsEmpty s = true := by simpa using hc
      have hdata : s.data = [] := by
        simpa [pyIsEmpty, List.isEmpty_iff] using hemp
      rw [string_eq_empty_of_data_nil s hdata] at h
      have h0 : amendedUuidAccepts "" = false := by decide
      simp [h0] at h
    simp [validate_subscription_id, hne, hmatch]
  · intro h
    have hbranch : ∃ msg,
        validate_subscription_id s = .error (.validationError msg "subscription_id") := by
      by_cases hnil : pyIsEmpty s
      · exact ⟨"Subscription ID cannot be empty",
          by simp [validate_subscription_id, hnil]⟩
      · have hm : reDollarMatch matchesUuidCore (pyLower s) = false := by
          simpa [amendedUuidAccepts, reDollarMatch] using h
        exact ⟨"Invalid subscription ID format. Must be a valid UUID",
          by simp [validate_subscription_id, hnil, hm]⟩
    rcases hbranch with ⟨msg, hv⟩
    have hv2 : validate_subscription_id req.subscription_id =
        .error (.validationError msg "subscription_id") := by
      rw [hreq]; exact hv
    refine ⟨by simp [hv, exceptValidationErrorNaming], ?_, ?_⟩
    · simp [list_storage_accounts, list_storage_accounts_body, hv2, exceptBind_err]
    · simp [list_storage_accounts, list_storage_accounts_body, hv2, exceptBind_err,
        listExceptChain, exceptValidationErrorNaming]

/-- Witness for C4 at concrete inputs. -/
theorem claim_C4_subscription_validation_witness :
    sampleBadListReq.subscription_id = "not-a-uuid" ∧
    amendedUuidAccepts "not-a-uuid" = false ∧
    amendedUuidAccepts "ABCDEF12-1234-1234-1234-123456789012" = true ∧
    validate_subscription_id "ABCDEF12-1234-1234-1234-123456789012" =
      .ok "ABCDEF12-1234-1234-1234-123456789012" ∧
    exceptValidationErrorNaming "subscription_id"
      (validate_subscription_id "not-a-uuid") = true ∧
    list_storage_accounts sampleBadListReq sampleListEnvEmpty sampleMd =
      list_storage_accounts sampleBadListReq sampleListEnv403 sampleMd ∧
    exceptValidationErrorNaming "subscription_id"
      (list_storage_accounts sampleBadListReq sampleListEnvEmpty sampleMd) = true := by
  have h := (claim_C4_subscription_validation "not-a-uuid" sampleBadListReq
    sampleListEnvEmpty sampleListEnv403 sampleMd rfl).2 (by decide)
  have hpos := (claim_C4_subscription_validation "ABCDEF12-1234-1234-1234-123456789012"
    { subscription_id := "ABCDEF12-1234-1234-1234-123456789012"
      resource_group := none
      include_deleted := false }
    sampleListEnvEmpty sampleListEnvEmpty sampleMd rfl).1 (by decide)
  exact ⟨rfl, by decide, by decide, hpos, h.1, h.2.1, h.2.2⟩

/-! ## Claim C6 -/

/-- C6: the metrics summary renders each aggregated entry per the
documented formatting — UsedCapacity divided by 1024³ with two decimals
plus " GB", Transactions with zero decimals, anything else with two
decimals — joined into one sentence naming the account, time range and
aggregation type. -/
theorem claim_C6_metrics_summary_rendering (req : GetStorageMetricsRequest)
    (l : List (String × ℚ)) (h : l ≠ []) :
    create_metrics_summary req l =
      "Metrics for '" ++ req.account_name ++ "' over the last " ++ req.time_range ++
        " (" ++ req.aggregation_type ++ "): " ++
        String.intercalate ", " (l.map specMetricEntry) := by
  have hne : l.isEmpty = false := by simpa [List.isEmpty_iff] using h
  have hmap : l.map (fun p : String × ℚ =>
      if p.1 = "UsedCapacity" then
        p.1 ++ ": " ++ formatFixed (p.2 / (1024 * 1024 * 1024)) 2 ++ " GB"
      else if p.1 = "Transactions" then
        p.1 ++ ": " ++ formatFixed p.2 0
      else
        p.1 ++ ": " ++ formatFixed p.2 2) = l.map specMetricEntry := by
    apply List.map_congr_left
    intro p _
    by_cases h1 : p.1 = "UsedCapacity"
    · have hpow : (1024 * 1024 * 1024 : ℚ) = (1024 : ℚ) ^ 3 := by norm_num
      simp [specMetricEntry, h1, hpow]
    · by_cases h2 : p.1 = "Transactions" <;> simp [specMetricEntry, h1, h2]
  simp only [create_metrics_summary, hne, Bool.false_eq_true, if_false, hmap]

/-- Witness for C6 at concrete inputs: the documented example — aggregated
UsedCapacity of 3221225472 bytes under aggregation "Average" renders as
"UsedCapacity: 3.00 GB". -/
theorem claim_C6_metrics_summary_rendering_witness :
    ([("UsedCapacity", (3221225472 : ℚ))] ≠ ([] : List (String × ℚ))) ∧
    create_metrics_summary (sampleMetricsReq ["UsedCapacity"])
        [("UsedCapacity", (3221225472 : ℚ))] =
      "Metrics for 'acct1' over the last 1h (Average): UsedCapacity: 3.00 GB" := by
  refine ⟨by decide, ?_⟩
  rw [claim_C6_metrics_summary_rendering (sampleMetricsReq ["UsedCapacity"])
    [("UsedCapacity", (3221225472 : ℚ))] (by decide)]
  have hdiv : (3221225472 : ℚ) / (1024 : ℚ) ^ 3 = 3 := by norm_num
  simp only [sampleMetricsReq, List.map_cons, List.map_nil, specMetricEntry,
    if_true, hdiv]
  decide

/-! ## Claim C5 -/

theorem pyIsEmpty_false_of_ne (s : String) (h : s ≠ "") : pyIsEmpty s = false := by
  cases s with
  | mk d =>
      cases d with
      | nil => exact absurd rfl h
      | cons c t => rfl

/-- C5: the empty listing produces the exact documented summaries for the
subscription and resource-group scopes, and a non-empty listing reports
the count plus a per-region distribution clause whose regions are sorted
lexicographically and whose counts are the per-region account counts,
covering every region that occurs. -/
theorem claim_C5_list_summary (req : ListStorageAccountsRequest)
    (accounts : List StorageAccountSummary) (rg : String) :
    (req.resource_group = none →
      create_list_summary [] req = "No storage accounts found in subscription") ∧
    (req.resource_group = some rg → rg ≠ "" →
      create_list_summary [] req =
        "No storage accounts found in resource group '" ++ rg ++ "'") ∧
    (accounts ≠ [] →
      create_list_summary accounts req =
        "Found " ++ toString accounts.length ++ " storage account" ++
          (if accounts.length ≠ 1 then "s" else "") ++ " in " ++ listScope req ++
          ". Distribution by region: " ++
          String.intercalate ", " ((sortPairsByKey (locationCounts accounts)).map
            fun p => p.1 ++ ": " ++ toString p.2) ∧
      sortedByKeyB (sortPairsByKey (locationCounts accounts)) = true ∧
      ((sortPairsByKey (locationCounts accounts)).all
        fun p => p.2 == specRegionCount accounts p.1) = true ∧
      (accounts.all fun a =>
        (sortPairsByKey (locationCounts accounts)).any
          fun p => p.1 == a.location) = true) := by
  refine ⟨?_, ?_, ?_⟩
  · intro h
    simp only [create_list_summary, List.isEmpty_nil, if_true, listScope,
      pyOptStrTruthy, h, Bool.false_eq_true, if_false]
    decide
  · intro h hne
    have hf : pyIsEmpty rg = false := pyIsEmpty_false_of_ne rg hne
    simp only [create_list_summary, List.isEmpty_nil, if_true, listScope,
      pyOptStrTruthy, h, hf, Bool.not_false, if_true, Option.getD_some]
    have hA : "No storage accounts found in " ++ "resource group '" =
        "No storage accounts found in resource group '" := by decide
    simp only [← String.append_assoc, hA]
  · intro h
    have hne : accounts.isEmpty = false := by simpa [List.isEmpty_iff] using h
    refine ⟨?_, sortPairsByKey_sorted _, ?_, ?_⟩
    · simp only [create_list_summary, hne, Bool.false_eq_true, if_false]
    · rw [List.all_eq_true]
      intro p hp
      have hmem : p ∈ locationCounts accounts :=
        (sortPairsByKey_perm (locationCounts accounts)).mem_iff.mp hp
      have hlook : lookupA (locationCounts accounts) p.1 = some p.2 :=
        lookupA_of_mem_nodup _ p (locationCounts_nodup accounts) hmem
      have hcount := locationCounts_lookup accounts p.1
      rw [hlook] at hcount
      simp only [Option.getD_some] at hcount
      simp only [beq_iff_eq]
      exact hcount
    · rw [List.all_eq_true]
      intro a ha
      have hmemf : a ∈ accounts.filter (fun x => x.location = a.location) :=
        List.mem_filter.mpr ⟨ha, by simp⟩
      have hspec : 0 < specRegionCount accounts a.location := by
        have hlen : accounts.filter (fun x => x.location = a.location) ≠ [] :=
          List.ne_nil_of_mem hmemf
        simpa [specRegionCount] using List.length_pos.mpr hlen
      have hcount := locationCounts_lookup accounts a.location
      cases hl : lookupA (locationCounts accounts) a.location with
      | none =>
          rw [hl] at hcount
          simp only [Option.getD_none] at hcount
          omega
      | some c =>
          have hmemc : (a.location, c) ∈ locationCounts accounts :=
            lookupA_mem _ _ _ hl
          have hmems : (a.location, c) ∈ sortPairsByKey (locationCounts accounts) :=
            (sortPairsByKey_perm _).mem_iff.mpr hmemc
          rw [List.any_eq_true]
          exact ⟨(a.location, c), hmems, by simp⟩

/-- Witness for C5 at concrete inputs, containing the documented
eastus/westus example. -/
theorem claim_C5_list_summary_witness :
    sampleListReq.resource_group = none ∧
    ([sampleSummary "westus", sampleSummary "eastus", sampleSummary "eastus"] ≠
      ([] : List StorageAccountSummary)) ∧
    create_list_summary [] sampleListReq = "No storage accounts found in subscription" ∧
    create_list_summary
        [sampleSummary "westus", sampleSummary "eastus", sampleSummary "eastus"]
        sampleListReq =
      "Found 3 storage accounts in subscription. Distribution by region: eastus: 2, westus: 1" := by
  have h := claim_C5_list_summary sampleListReq
    [sampleSummary "westus", sampleSummary "eastus", sampleSummary "eastus"] "rg1"
  refine ⟨rfl, by decide, h.1 rfl, ?_⟩
  rw [(h.2.2 (by decide)).1]
  decide

/-! ## Claims C7, C8, C3: the metrics operation.  The shared projection
lemma characterizes a successful run of get_storage_metrics. -/

theorem get_storage_metrics_projections
    (req : GetStorageMetricsRequest) (env : MetricsProviderEnv)
    (md : ResponseMetadata) (t : Int)
    (h1 : validate_subscription_id req.subscription_id = .ok req.subscription_id)
    (h2 : validate_resource_group req.resource_group = .ok req.resource_group)
    (h3 : validate_storage_account_name req.account_name = .ok req.account_name)
    (h4 : env.getClient = .ok ())
    (hf : ∀ m ∈ req.metrics, absorbableFetch
      (env.fetch (resourceIdOf req) (timespanOf req t) req.interval m
        req.aggregation_type) = true) :
    metricsIsOk (get_storage_metrics req env md t) = true ∧
    metricsAvailableOf (get_storage_metrics req env md t) =
      some (get_available_metrics (env.definitions (resourceIdOf req))) ∧
    (∀ m, metricsDataFor (get_storage_metrics req env md t) m =
      if m ∈ req.metrics then
        some (loopDataValue req.aggregation_type
          (env.fetch (resourceIdOf req) (timespanOf req t) req.interval m
            req.aggregation_type))
      else none) ∧
    (∀ m, metricsAgg (get_storage_metrics req env md t) m =
      if m ∈ req.metrics then
        some (loopAggValue req.aggregation_type
          (env.fetch (resourceIdOf req) (timespanOf req t) req.interval m
            req.aggregation_type))
      else none) ∧
    metricsAllPresent (get_storage_metrics req env md t) req.metrics = true := by
  rcases metricsLoop_fold req.aggregation_type
      (fun m => env.fetch (resourceIdOf req) (timespanOf req t) req.interval m
        req.aggregation_type)
      req.metrics ([], []) hf with ⟨d, hd, hd1, hd2⟩
  have hloop : metricsLoop req env (resourceIdOf req) (timespanOf req t) = .ok d := by
    simpa [metricsLoop] using hd
  have hop : get_storage_metrics req env md t = .ok
      { account_name := req.account_name
        time_range := req.time_range
        start_time := parse_time_range req.time_range t
        end_time := t
        metrics_data := d.1
        aggregated_summary := d.2
        available_metrics := get_available_metrics (env.definitions (resourceIdOf req))
        metadata := md
        summary := create_metrics_summary req d.2 } := by
    simp [get_storage_metrics, get_storage_metrics_body, h1, h2, h3, h4,
      exceptBind_ok, exceptBind_err, exceptPure, hloop]
  refine ⟨?_, ?_, ?_, ?_, ?_⟩
  · simp [hop, metricsIsOk]
  · simp [hop, metricsAvailableOf]
  · intro m
    simp only [hop, metricsDataFor]
    simpa [lookupA] using hd1 m
  · intro m
    simp only [hop, metricsAgg]
    simpa [lookupA] using hd2 m
  · simp only [hop, metricsAllPresent]
    rw [List.all_eq_true]
    intro m hm
    have hl := hd2 m
    simp only [hm, if_pos] at hl
    simp [hl]

/-- C7, counterexample: the code filters data points on the presence of a
timestamp as well; with one data point carrying an Average value but no
timestamp and one carrying both, the aggregated value is 3 (mean of the
timestamped point only), while the claim's mean over all value-carrying
points would be 4. -/
theorem claim_C7_counterexample :
    metricsAgg (get_storage_metrics (sampleMetricsReq ["M"]) sampleMetricsEnvC7
        sampleMd 1000000) "M" = some 3 ∧
    specMean (claimEligibleValues "Average" sampleMetricResult) = 4 ∧
    (3 : ℚ) ≠ 4 := by
  refine ⟨?_, ?_, by norm_num⟩
  · have hproj := (get_storage_metrics_projections (sampleMetricsReq ["M"])
      sampleMetricsEnvC7 sampleMd 1000000 rfl rfl rfl rfl
      (fun m2 _ => rfl)).2.2.2.1
    have hmem : "M" ∈ (sampleMetricsReq ["M"]).metrics := by simp [sampleMetricsReq]
    rw [hproj "M", if_pos hmem]
    have hfetch : sampleMetricsEnvC7.fetch (resourceIdOf (sampleMetricsReq ["M"]))
        (timespanOf (sampleMetricsReq ["M"]) 1000000) (sampleMetricsReq ["M"]).interval
        "M" (sampleMetricsReq ["M"]).aggregation_type = .ok sampleMetricResult := rfl
    rw [hfetch]
    show some (processMetricResult "Average" sampleMetricResult).2 = some 3
    rw [processMetricResult_eq_specMean]
    have hv : amendedEligibleValues "Average" sampleMetricResult = [3] := by decide
    rw [hv]
    simp [specMean]
  · have hv : claimEligibleValues "Average" sampleMetricResult = [5, 3] := by decide
    rw [hv]
    simp only [specMean, List.length_cons, List.length_nil, List.sum_cons,
      List.sum_nil]
    norm_num

/-- C7, amended: the aggregated summary value for a metric is the
arithmetic mean of the values of the data points that carry a timestamp
and a value for the requested aggregation type (0 when no such point
exists); the aggregation type is matched case-insensitively, and an
unrecognized aggregation type gets "average" semantics for both filtering
and value extraction. -/
theorem claim_C7_aggregated_mean (agg a b : String) (dp : AzDataPoint)
    (r : AzMetricResult) (req : GetStorageMetricsRequest) (env : MetricsProviderEnv)
    (md : ResponseMetadata) (t : Int) (m : String)
    (h1 : validate_subscription_id req.subscription_id = .ok req.subscription_id)
    (h2 : validate_resource_group req.resource_group = .ok req.resource_group)
    (h3 : validate_storage_account_name req.account_name = .ok req.account_name)
    (h4 : env.getClient = .ok ())
    (hf : ∀ m2 ∈ req.metrics, absorbableFetch
      (env.fetch (resourceIdOf req) (timespanOf req t) req.interval m2
        req.aggregation_type) = true)
    (hm : m ∈ req.metrics)
    (hr : env.fetch (resourceIdOf req) (timespanOf req t) req.interval m
      req.aggregation_type = .ok r)
    (hab : pyLower a = pyLower b)
    (hcon : pyLower a ∉ recognizedAggregations) :
    (processMetricResult agg r).2 = specMean (amendedEligibleValues agg r) ∧
    (has_metric_value dp a = has_metric_value dp b ∧
     get_metric_value dp a = get_metric_value dp b) ∧
    (has_metric_value dp a = has_metric_value dp "average" ∧
     get_metric_value dp a = get_metric_value dp "average") ∧
    metricsAgg (get_storage_metrics req env md t) m =
      some (specMean (amendedEligibleValues req.aggregation_type r)) := by
  refine ⟨processMetricResult_eq_specMean agg r, ?_, ?_, ?_⟩
  · constructor <;> simp only [has_metric_value, get_metric_value, hab]
  · have hav : pyLower "average" = "average" := by decide
    simp only [recognizedAggregations, List.mem_cons, List.mem_singleton,
      not_or] at hcon
    obtain ⟨hc1, hc2, hc3, hc4, hc5⟩ := hcon
    constructor <;>
      simp [has_metric_value, get_metric_value, hc1, hc2, hc3, hc4, hc5, hav]
  · have hproj := (get_storage_metrics_projections req env md t h1 h2 h3 h4 hf).2.2.2.1
    rw [hproj m, if_pos hm, hr]
    show some (processMetricResult req.aggregation_type r).2 = _
    rw [processMetricResult_eq_specMean]

/-- Witness for C7 at concrete inputs. -/
theorem claim_C7_aggregated_mean_witness :
    ("M" ∈ (sampleMetricsReq ["M"]).metrics) ∧
    pyLower "BOGUS" = pyLower "bogus" ∧
    pyLower "BOGUS" ∉ recognizedAggregations ∧
    ((processMetricResult "Average" sampleMetricResult).2 =
      specMean (amendedEligibleValues "Average" sampleMetricResult) ∧
    (has_metric_value dpWithTs "BOGUS" = has_metric_value dpWithTs "bogus" ∧
     get_metric_value dpWithTs "BOGUS" = get_metric_value dpWithTs "bogus") ∧
    (has_metric_value dpWithTs "BOGUS" = has_metric_value dpWithTs "average" ∧
     get_metric_value dpWithTs "BOGUS" = get_metric_value dpWithTs "average") ∧
    metricsAgg (get_storage_metrics (sampleMetricsReq ["M"]) sampleMetricsEnvC7
        sampleMd 1000000) "M" =
      some (specMean (amendedEligibleValues
        (sampleMetricsReq ["M"]).aggregation_type sampleMetricResult))) :=
  ⟨by simp [sampleMetricsReq], by decide, by decide,
    claim_C7_aggregated_mean "Average" "BOGUS" "bogus" dpWithTs sampleMetricResult
      (sampleMetricsReq ["M"]) sampleMetricsEnvC7 sampleMd 1000000 "M"
      rfl rfl rfl rfl (fun m2 _ => rfl) (by simp [sampleMetricsReq]) rfl
      (by decide) (by decide)⟩

/-- C8, counterexample: a non-HTTP failure fetching one metric's data —
here a ClientAuthenticationError — aborts the whole batch: the operation
fails with AUTH_ERROR instead of substituting an empty series and
continuing. -/
theorem claim_C8_counterexample :
    get_storage_metrics (sampleMetricsReq ["A", "B"]) sampleMetricsEnvAuth
        sampleMd 1000000 =
      .error (.authenticationError "Authentication failed: token expired"
        "azure_auth") := by
  rfl

/-- C8, amended: an HTTP failure fetching one metric's data does not abort
the batch — that metric gets an empty data-point list and aggregated value
0 while every requested metric still receives an entry — and any failure
fetching the metric-definition catalog yields an empty available-metrics
catalog while the operation succeeds; a non-HTTP exception during a metric
fetch, however, aborts the operation. -/
theorem claim_C8_metrics_batch_resilience
    (req : GetStorageMetricsRequest) (env : MetricsProviderEnv)
    (md : ResponseMetadata) (t : Int) (m : String) (sc : Nat) (msg : String)
    (e : PyExn)
    (h1 : validate_subscription_id req.subscription_id = .ok req.subscription_id)
    (h2 : validate_resource_group req.resource_group = .ok req.resource_group)
    (h3 : validate_storage_account_name req.account_name = .ok req.account_name)
    (h4 : env.getClient = .ok ())
    (hf : ∀ m2 ∈ req.metrics, absorbableFetch
      (env.fetch (resourceIdOf req) (timespanOf req t) req.interval m2
        req.aggregation_type) = true)
    (hm : m ∈ req.metrics)
    (hr : env.fetch (resourceIdOf req) (timespanOf req t) req.interval m
      req.aggregation_type = .error (.httpResponseError sc msg))
    (hdef : env.definitions (resourceIdOf req) = .error e) :
    metricsIsOk (get_storage_metrics req env md t) = true ∧
    metricsDataFor (get_storage_metrics req env md t) m = some [] ∧
    metricsAgg (get_storage_metrics req env md t) m = some 0 ∧
    metricsAllPresent (get_storage_metrics req env md t) req.metrics = true ∧
    metricsAvailableOf (get_storage_metrics req env md t) = some [] := by
  obtain ⟨hok, havail, hdata, hagg, hall⟩ :=
    get_storage_metrics_projections req env md t h1 h2 h3 h4 hf
  refine ⟨hok, ?_, ?_, hall, ?_⟩
  · rw [hdata m, if_pos hm, hr]
    rfl
  · rw [hagg m, if_pos hm, hr]
    rfl
  · rw [havail, hdef]
    rfl

/-- Witness for C8 at concrete inputs. -/
theorem claim_C8_metrics_batch_resilience_witness :
    ("UsedCapacity" ∈ (sampleMetricsReq ["UsedCapacity"]).metrics) ∧
    (metricsIsOk (get_storage_metrics (sampleMetricsReq ["UsedCapacity"])
        sampleMetricsEnv403 sampleMd 1000000) = true ∧
    metricsDataFor (get_storage_metrics (sampleMetricsReq ["UsedCapacity"])
        sampleMetricsEnv403 sampleMd 1000000) "UsedCapacity" = some [] ∧
    metricsAgg (get_storage_metrics (sampleMetricsReq ["UsedCapacity"])
        sampleMetricsEnv403 sampleMd 1000000) "UsedCapacity" = some 0 ∧
    metricsAllPresent (get_storage_metrics (sampleMetricsReq ["UsedCapacity"])
        sampleMetricsEnv403 sampleMd 1000000)
        (sampleMetricsReq ["UsedCapacity"]).metrics = true ∧
    metricsAvailableOf (get_storage_metrics (sampleMetricsReq ["UsedCapacity"])
        sampleMetricsEnv403 sampleMd 1000000) = some []) :=
  ⟨by simp [sampleMetricsReq],
    claim_C8_metrics_batch_resilience (sampleMetricsReq ["UsedCapacity"])
      sampleMetricsEnv403 sampleMd 1000000 "UsedCapacity" 403 "forbidden"
      (.httpResponseError 403 "forbidden")
      rfl rfl rfl rfl (fun m2 _ => rfl) (by simp [sampleMetricsReq]) rfl rfl⟩

/-! ## Claim C3 -/

/-- C3, counterexample: in get_storage_metrics a 403 on the per-metric
fetch (and on the catalog fetch) is absorbed, so no Permission error — in
fact no error at all — is surfaced: the operation succeeds with an empty
series and aggregated 0. -/
theorem claim_C3_counterexample :
    sampleMetricsEnv403.fetch "u" "t" "i" "UsedCapacity" "Average" =
      .error (.httpResponseError 403 "forbidden") ∧
    metricsIsOk (get_storage_metrics (sampleMetricsReq ["UsedCapacity"])
        sampleMetricsEnv403 sampleMd 1000000) = true ∧
    metricsAgg (get_storage_metrics (sampleMetricsReq ["UsedCapacity"])
        sampleMetricsEnv403 sampleMd 1000000) "UsedCapacity" = some 0 :=
  ⟨rfl, rfl, rfl⟩

/-- C3, amended: a 403 on a mandatory provider call is surfaced as a
Permission error carrying the operation-specific required-permission string
in list_storage_accounts, get_storage_account_details, get_network_rules
and get_private_endpoints; in get_storage_metrics the per-metric and
catalog fetches are optional — their 403s are absorbed (empty series /
empty catalog) and the operation succeeds. -/
theorem claim_C3_permission_mapping
    (lreq : ListStorageAccountsRequest) (lenv : ListProviderEnv)
    (dreq : GetStorageAccountDetailsRequest) (denv : DetailsProviderEnv)
    (nreq : GetNetworkRulesRequest) (nenv : NetworkProviderEnv)
    (preq : GetPrivateEndpointsRequest) (penv : PrivateEndpointsProviderEnv)
    (mreq : GetStorageMetricsRequest) (menv : MetricsProviderEnv)
    (md : ResponseMetadata) (t : Int) (lmsg dmsg nmsg pmsg e2msg : String)
    (mm : String)
    (hl1 : validate_subscription_id lreq.subscription_id = .ok lreq.subscription_id)
    (hl2 : pyOptStrTruthy lreq.resource_group = true →
      validate_resource_group (lreq.resource_group.getD "") =
        .ok (lreq.resource_group.getD ""))
    (hl4 : lenv.getClient = .ok ())
    (hla : listingCall lreq lenv = .error (.httpResponseError 403 lmsg))
    (hd1 : validate_subscription_id dreq.subscription_id = .ok dreq.subscription_id)
    (hd2 : validate_resource_group dreq.resource_group = .ok dreq.resource_group)
    (hd3 : validate_storage_account_name dreq.account_name = .ok dreq.account_name)
    (hd4 : denv.getClient = .ok ())
    (hd5 : denv.getProps = .error (.httpResponseError 403 dmsg))
    (hn1 : validate_subscription_id nreq.subscription_id = .ok nreq.subscription_id)
    (hn2 : validate_resource_group nreq.resource_group = .ok nreq.resource_group)
    (hn3 : validate_storage_account_name nreq.account_name = .ok nreq.account_name)
    (hn4 : nenv.getClient = .ok ())
    (hn5 : nenv.getProps = .error (.httpResponseError 403 nmsg))
    (hp1 : validate_subscription_id preq.subscription_id = .ok preq.subscription_id)
    (hp2 : validate_resource_group preq.resource_group = .ok preq.resource_group)
    (hp3 : validate_storage_account_name preq.account_name = .ok preq.account_name)
    (hp4 : penv.getClient = .ok ())
    (hp5 : penv.connections = .error (.httpResponseError 403 pmsg))
    (hm1 : validate_subscription_id mreq.subscription_id = .ok mreq.subscription_id)
    (hm2 : validate_resource_group mreq.resource_group = .ok mreq.resource_group)
    (hm3 : validate_storage_account_name mreq.account_name = .ok mreq.account_name)
    (hm4 : menv.getClient = .ok ())
    (hmm : mm ∈ mreq.metrics)
    (hmf : ∀ m2 ∈ mreq.metrics,
      menv.fetch (resourceIdOf mreq) (timespanOf mreq t) mreq.interval m2
        mreq.aggregation_type = .error (.httpResponseError 403 e2msg)) :
    list_storage_accounts lreq lenv md =
      .error (.permissionError
        ("Insufficient permissions to list storage accounts: " ++ lmsg)
        "Microsoft.Storage/storageAccounts/read") ∧
    get_storage_account_details dreq denv md =
      .error (.permissionError
        ("Insufficient permissions to access storage account: " ++ dmsg)
        "Microsoft.Storage/storageAccounts/read") ∧
    get_network_rules nreq nenv md =
      .error (.permissionError
        ("Insufficient permissions to access network rules: " ++ nmsg)
        "Microsoft.Storage/storageAccounts/read") ∧
    get_private_endpoints preq penv md =
      .error (.permissionError
        ("Insufficient permissions to access private endpoints: " ++ pmsg)
        "Microsoft.Storage/storageAccounts/privateEndpointConnections/read") ∧
    metricsIsOk (get_storage_metrics mreq menv md t) = true ∧
    metricsAgg (get_storage_metrics mreq menv md t) mm = some 0 := by
  have hmabs : ∀ m2 ∈ mreq.metrics, absorbableFetch
      (menv.fetch (resourceIdOf mreq) (timespanOf mreq t) mreq.interval m2
        mreq.aggregation_type) = true := by
    intro m2 hm2
    rw [hmf m2 hm2]
    rfl
  obtain ⟨hok, _, _, hagg, _⟩ :=
    get_storage_metrics_projections mreq menv md t hm1 hm2 hm3 hm4 hmabs
  refine ⟨?_, ?_, ?_, ?_, hok, ?_⟩
  · by_cases htr : pyOptStrTruthy lreq.resource_group
    · have hv2 := hl2 htr
      have hla2 : lenv.listByRG (lreq.resource_group.getD "") =
          .error (.httpResponseError 403 lmsg) := by
        simpa [listingCall, htr] using hla
      simp [list_storage_accounts, list_storage_accounts_body, hl1, hv2, hl4, htr,
        hla2, exceptBind_ok, exceptBind_err, exceptPure, listExceptChain]
    · have htr2 : pyOptStrTruthy lreq.resource_group = false := by simpa using htr
      have hla2 : lenv.listAll = .error (.httpResponseError 403 lmsg) := by
        simpa [listingCall, htr2] using hla
      simp [list_storage_accounts, list_storage_accounts_body, hl1, hl4, htr2,
        hla2, exceptBind_ok, exceptBind_err, exceptPure, listExceptChain]
  · simp [get_storage_account_details, get_storage_account_details_body,
      hd1, hd2, hd3, hd4, hd5, exceptBind_ok, exceptBind_err, exceptPure,
      detailsExceptChain]
  · simp [get_network_rules, get_network_rules_body, hn1, hn2, hn3, hn4, hn5,
      exceptBind_ok, exceptBind_err, exceptPure, networkExceptChain]
  · simp [get_private_endpoints, get_private_endpoints_body, hp1, hp2, hp3, hp4,
      hp5, exceptBind_ok, exceptBind_err, exceptPure, privateEndpointsExceptChain]
  · rw [hagg mm, if_pos hmm, hmf mm hmm]
    rfl

/-- Witness for C3 at concrete inputs. -/
theorem claim_C3_permission_mapping_witness :
    listingCall sampleListReq sampleListEnv403 =
      .error (.httpResponseError 403 "forbidden") ∧
    sampleDetailsEnv403.getProps = .error (.httpResponseError 403 "forbidden") ∧
    samplePeEnv403.connections = .error (.httpResponseError 403 "forbidden") ∧
    (list_storage_accounts sampleListReq sampleListEnv403 sampleMd =
      .error (.permissionError
        ("Insufficient permissions to list storage accounts: " ++ "forbidden")
        "Microsoft.Storage/storageAccounts/read") ∧
    get_storage_account_details sampleDetailsReq sampleDetailsEnv403 sampleMd =
      .error (.permissionError
        ("Insufficient permissions to access storage account: " ++ "forbidden")
        "Microsoft.Storage/storageAccounts/read") ∧
    get_network_rules sampleNRReq sampleNetworkEnv403 sampleMd =
      .error (.permissionError
        ("Insufficient permissions to access network rules: " ++ "forbidden")
        "Microsoft.Storage/storageAccounts/read") ∧
    get_private_endpoints sampleGPEReq samplePeEnv403 sampleMd =
      .error (.permissionError
        ("Insufficient permissions to access private endpoints: " ++ "forbidden")
        "Microsoft.Storage/storageAccounts/privateEndpointConnections/read") ∧
    metricsIsOk (get_storage_metrics (sampleMetricsReq ["UsedCapacity"])
        sampleMetricsEnv403 sampleMd 1000000) = true ∧
    metricsAgg (get_storage_metrics (sampleMetricsReq ["UsedCapacity"])
        sampleMetricsEnv403 sampleMd 1000000) "UsedCapacity" = some 0) :=
  ⟨rfl, rfl, rfl,
    claim_C3_permission_mapping sampleListReq sampleListEnv403 sampleDetailsReq
      sampleDetailsEnv403 sampleNRReq sampleNetworkEnv403 sampleGPEReq
      samplePeEnv403 (sampleMetricsReq ["UsedCapacity"]) sampleMetricsEnv403
      sampleMd 1000000 "forbidden" "forbidden" "forbidden" "forbidden" "forbidden"
      "UsedCapacity"
      rfl (fun h => absurd h (by decide)) rfl rfl
      rfl rfl rfl rfl rfl
      rfl rfl rfl rfl rfl
      rfl rfl rfl rfl rfl
      rfl rfl rfl rfl (by simp [sampleMetricsReq]) (fun m2 _ => rfl)⟩

end AzureStorageMCP
